import Mathlib

/-!
Shallow embedding of the booking engine of the Booklyfy frontend
(`src/services/booking.service.ts`, `src/services/mock-store.ts`,
`src/types/api.ts`, `src/types/index.ts`).

Modelling conventions:
* Timestamps (`Date` values, ISO strings, `Date.now()`) are absolute instants
  in milliseconds, embedded as `Int`.  `new Date(s).getTime()` on a stored ISO
  string is the identity on the embedded instant; all comparisons the code
  performs on `Date` objects are order comparisons on these instants.
* Every call of `Date.now()` / `new Date()` inside one handler invocation is
  modelled by a single `now : Int` argument to the handler (the code relies on
  the ms clock for id generation; within one synchronous handler the calls are
  at most a few ms apart and the code never distinguishes them).
* Template-literal ids `customer-${Date.now()}` and `booking-${Date.now()}`
  are modelled by dedicated constructors `EntityId.customerStamp` /
  `EntityId.bookingStamp` carrying the timestamp; handwritten ids are
  `EntityId.str`.  Constructor disjointness models the standing assumption
  that a fixture id never collides with a freshly generated one.
* Optional fields (`foo?: T`) are `Option T`; the JS falsiness tests the code
  performs on them (`!request.staffId`, `request.customerEmail && ...`)
  are modelled as `Option.isSome` tests (the degenerate falsy value `""` of a
  present-but-empty string is not modelled).
* In-place mutation of an object found in a store array (`customer.totalBookings
  += 1`, `this.bookings[index] = {...}`) is modelled by rebuilding the list with
  the first cell matching the same predicate replaced, which is exactly the cell
  the JS reference points at.
* The result envelope keeps the fields the handlers use: `isSuccess`, `data`,
  `error`, `statusCode` (`validationErrors` is always `[]` in these handlers).
-/

/-- Entity ids. `str` is a handwritten/fixture id, `customerStamp t` embeds the
template literal string `customer-` followed by the ms timestamp `t`, and
`bookingStamp t` embeds `booking-` followed by `t`. -/
inductive EntityId where
  | str (s : String)
  | customerStamp (t : Int)
  | bookingStamp (t : Int)
deriving DecidableEq, Repr

/-- The `BookingStatus` union type of `src/types/index.ts`. -/
inductive BookingStatus where
  | pending
  | confirmed
  | cancelled
  | completed
  | no_show
deriving DecidableEq, Repr

/-- String rendering of a status, used in the error messages
`Cannot update a ${booking.status} booking` etc. -/
def statusText : BookingStatus → String
  | .pending => "pending"
  | .confirmed => "confirmed"
  | .cancelled => "cancelled"
  | .completed => "completed"
  | .no_show => "no_show"

/-- `ApiError` of `src/types/api.ts` (the `details`/`stackTrace` fields are
never set by the booking handlers and are omitted). -/
structure ApiError where
  code : String
  message : String
deriving DecidableEq, Repr

/-- `OperationResult<T>` of `src/types/api.ts`.  `data` is `Option` because the
field is `T | null`, and the handlers can pass `undefined` through
`createSuccessResult(updatedBooking!)`. -/
structure OperationResult (α : Type) where
  isSuccess : Bool
  data : Option α
  error : Option ApiError
  statusCode : Int
deriving DecidableEq, Repr

/-- `createSuccessResult` of `src/types/api.ts` (status code passed
explicitly; the handlers use 200 or 201). -/
def createSuccessResult {α : Type} (data : α) (statusCode : Int) : OperationResult α :=
  { isSuccess := true, data := some data, error := none, statusCode := statusCode }

/-- `createErrorResult` of `src/types/api.ts`. -/
def createErrorResult {α : Type} (code message : String) (statusCode : Int) :
    OperationResult α :=
  { isSuccess := false, data := none,
    error := some { code := code, message := message }, statusCode := statusCode }

/-- `createNotFoundResult` of `src/types/api.ts`: generic code `NOT_FOUND`,
message `<resource> not found.`, HTTP status 404. -/
def createNotFoundResult {α : Type} (resource : String) : OperationResult α :=
  { isSuccess := false, data := none,
    error := some { code := "NOT_FOUND", message := resource ++ " not found." },
    statusCode := 404 }

/-- Milliseconds in a minute: the factor `60 * 1000` of
`service.durationMinutes * 60 * 1000`. -/
def minuteMs : Int := 60000

/-- Milliseconds in an hour (one `setHours` step of the availability loop). -/
def hourMs : Int := 3600000

/-- Milliseconds in a civil day. -/
def dayMs : Int := 86400000

/-- `Service` of `src/types/index.ts`, restricted to the fields the booking
handlers read. -/
structure Service where
  id : EntityId
  businessId : EntityId
  durationMinutes : Int
  price : Int
  currency : String
  bufferTimeBefore : Option Int
  bufferTimeAfter : Option Int
deriving DecidableEq, Repr

/-- `Staff` of `src/types/index.ts`, restricted to the fields the booking
handlers read. -/
structure Staff where
  id : EntityId
  businessId : EntityId
deriving DecidableEq, Repr

/-- `WorkingHours` of `src/types/index.ts`.  `startMinute`/`endMinute` embed
the `HH:mm` wall-clock strings as minutes after local midnight. -/
structure WorkingHours where
  staffId : EntityId
  dayOfWeek : Int
  startMinute : Int
  endMinute : Int
  isEnabled : Bool
deriving DecidableEq, Repr

/-- `Customer` of `src/types/index.ts`, restricted to the fields the booking
handlers read or write. -/
structure Customer where
  id : EntityId
  businessId : EntityId
  email : String
  firstName : String
  lastName : String
  phoneNumber : Option String
  totalBookings : Int
  totalSpent : Int
  lastVisitAt : Option Int
  createdAt : Int
  updatedAt : Int
deriving DecidableEq, Repr

/-- `Booking` of `src/types/index.ts`.  The expanded relations
`customer`/`staff`/`service` are embedded as the value the referenced object
has when the booking record is built (the handlers never read them back after
a later mutation of the referenced object, so the alias is not observable in
the verified properties). -/
structure Booking where
  id : EntityId
  businessId : EntityId
  customerId : EntityId
  staffId : EntityId
  serviceId : EntityId
  startTime : Int
  endTime : Int
  status : BookingStatus
  notes : Option String
  cancellationReason : Option String
  cancelledAt : Option Int
  cancelledBy : Option String
  price : Int
  currency : String
  customer : Option Customer
  staff : Option Staff
  service : Option Service
  createdAt : Int
  updatedAt : Int
deriving DecidableEq, Repr

/-- `CreateBookingRequest` of `src/types/index.ts`. -/
structure CreateBookingRequest where
  customerId : Option EntityId
  staffId : EntityId
  serviceId : EntityId
  startTime : Int
  notes : Option String
  customerEmail : Option String
  customerFirstName : Option String
  customerLastName : Option String
  customerPhoneNumber : Option String
deriving DecidableEq, Repr

/-- `UpdateBookingRequest` of `src/types/index.ts`. -/
structure UpdateBookingRequest where
  staffId : Option EntityId
  startTime : Option Int
  notes : Option String
deriving DecidableEq, Repr

/-- `CancelBookingRequest` of `src/types/index.ts`. -/
structure CancelBookingRequest where
  reason : Option String
deriving DecidableEq, Repr

/-- `AvailabilityRequest` of `src/types/index.ts`.  `date` is the local
midnight instant of the requested `YYYY-MM-DD` day, so that
`setHours(hour, 0, 0, 0)` yields `date + hour * hourMs`. -/
structure AvailabilityRequest where
  staffId : Option EntityId
  serviceId : EntityId
  date : Int
deriving DecidableEq, Repr

/-- `TimeSlot` of `src/types/index.ts`. -/
structure TimeSlot where
  startTime : Int
  endTime : Int
  isAvailable : Bool
deriving DecidableEq, Repr

/-- `AvailabilityResponse` of `src/types/index.ts`. -/
structure AvailabilityResponse where
  date : Int
  slots : List TimeSlot
deriving DecidableEq, Repr

/-- The mutable fields of the `MockStore` singleton
(`src/services/mock-store.ts`) that the booking handlers touch. -/
structure MockStore where
  staff : List Staff
  services : List Service
  customers : List Customer
  bookings : List Booking
  workingHours : List WorkingHours
deriving DecidableEq, Repr

/-- `mockStore.updateBooking(id, updates)`: replaces the first booking whose
`id` matches (`findIndex(b => b.id === id)`) by the merge of that booking with
the updates, here given as a function `f` producing the merged record. -/
def storeUpdateBooking (id : EntityId) (f : Booking → Booking) :
    List Booking → List Booking
  | [] => []
  | b :: rest =>
    if b.id = id then f b :: rest else b :: storeUpdateBooking id f rest

/-- In-place mutation of the first customer cell matching `p` (the JS object
reference returned by `customers.find(p)`); used for
`customer.totalBookings += 1; customer.totalSpent += ...`. -/
def bumpFirstCustomer (p : Customer → Bool) (f : Customer → Customer) :
    List Customer → List Customer
  | [] => []
  | c :: rest =>
    if p c then f c :: rest else c :: bumpFirstCustomer p f rest

/-- `mockStore.findCustomerByEmail(email)`: first customer with that email,
with NO business filter (`this.customers.find(c => c.email === email)`). -/
def findCustomerByEmail (email : String) (s : MockStore) : Option Customer :=
  s.customers.find? fun c => decide (c.email = email)

/-- The slot-occupancy test of `mockGetAvailability`: some booking of the
business, not cancelled, matching the requested staff when one is requested
(`!request.staffId || b.staffId === request.staffId`), with
`new Date(b.startTime) < endTime && new Date(b.endTime) > startTime`. -/
def availabilitySlotBooked (businessId : EntityId) (reqStaffId : Option EntityId)
    (bookings : List Booking) (slotStart slotEnd : Int) : Bool :=
  bookings.any fun b =>
    decide (b.businessId = businessId) && decide (b.status ≠ .cancelled) &&
    (match reqStaffId with
     | none => true
     | some sid => decide (b.staffId = sid)) &&
    decide (b.startTime < slotEnd) && decide (b.endTime > slotStart)

/-- `mockGetAvailability` (`booking.service.ts:110-152`): resolves the
service, then generates one slot per hour 9..17 of the requested day, each
`durationMinutes` long, marked unavailable when it overlaps an existing
non-cancelled booking of the business (and of the requested staff when
given). -/
def mockGetAvailability (businessId : EntityId) (request : AvailabilityRequest)
    (s : MockStore) : OperationResult AvailabilityResponse :=
  match s.services.find? (fun sv => decide (sv.id = request.serviceId)) with
  | none => createNotFoundResult "Service"
  | some service =>
    let slots : List TimeSlot := (List.range 9).map fun i =>
      let startTime : Int := request.date + (9 + (i : Int)) * hourMs
      let endTime : Int := startTime + service.durationMinutes * minuteMs
      let isBooked :=
        availabilitySlotBooked businessId request.staffId s.bookings startTime endTime
      { startTime := startTime, endTime := endTime, isAvailable := !isBooked }
    createSuccessResult { date := request.date, slots := slots } 200

/-- The conflict test of `mockCreateBooking` (`booking.service.ts:169-176`):
some booking of the same business and the requested staff, not cancelled,
with `b.startTime < endTime && b.endTime > startTime`. -/
def createHasConflict (businessId staffId : EntityId) (startTime endTime : Int)
    (bookings : List Booking) : Bool :=
  bookings.any fun b =>
    decide (b.businessId = businessId) && decide (b.staffId = staffId) &&
    decide (b.status ≠ .cancelled) &&
    decide (b.startTime < endTime) && decide (b.endTime > startTime)

/-- The stats mutation `customer.totalBookings += 1; customer.totalSpent +=
service.price; customer.lastVisitAt = startTime.toISOString()` of
`mockCreateBooking` (`booking.service.ts:242-244`). -/
def bumpStats (price startTime : Int) (c : Customer) : Customer :=
  { c with totalBookings := c.totalBookings + 1,
           totalSpent := c.totalSpent + price,
           lastVisitAt := some startTime }

/-- The `find or create customer` block of `mockCreateBooking`
(`booking.service.ts:195-206`): the fresh guest customer record. -/
def guestCustomer (now : Int) (businessId : EntityId)
    (request : CreateBookingRequest) (em : String) : Customer :=
  { id := .customerStamp now, businessId := businessId, email := em,
    firstName := request.customerFirstName.getD "",
    lastName := request.customerLastName.getD "",
    phoneNumber := request.customerPhoneNumber,
    totalBookings := 0, totalSpent := 0, lastVisitAt := none,
    createdAt := now, updatedAt := now }

/-- The customer resolution block of `mockCreateBooking`
(`booking.service.ts:186-217`): the customer object finally bound (found by
`customerId`, reused by email, or freshly created), the customers list after
the possible `addCustomer` push, and the predicate identifying the list cell
the JS object reference aliases (for the later in-place stats mutation).
`none` models falling through to the `CUSTOMER_NOT_FOUND` return. -/
def findOrCreateCustomer (now : Int) (businessId : EntityId)
    (request : CreateBookingRequest) (s : MockStore) :
    Option (Customer × List Customer × (Customer → Bool)) :=
  match (match request.customerId with
         | none => none
         | some cid => s.customers.find? fun c => decide (c.id = cid)) with
  | some c => some (c, s.customers, fun d => decide (d.id = c.id))
  | none =>
    match request.customerEmail with
    | none => none
    | some em =>
      match findCustomerByEmail em s with
      | some c => some (c, s.customers, fun d => decide (d.email = em))
      | none =>
        some (guestCustomer now businessId request em,
          s.customers ++ [guestCustomer now businessId request em],
          fun d => decide (d.id = EntityId.customerStamp now))

/-- The `newBooking` object literal of `mockCreateBooking`
(`booking.service.ts:219-236`).  The embedded `customer` carries the
post-increment stats, because in JS it aliases the object mutated right after
insertion. -/
def builtBooking (now : Int) (businessId : EntityId)
    (request : CreateBookingRequest) (service : Service) (staff : Staff)
    (customer : Customer) : Booking :=
  { id := .bookingStamp now, businessId := businessId,
    customerId := customer.id, staffId := request.staffId,
    serviceId := request.serviceId,
    startTime := request.startTime,
    endTime := request.startTime + service.durationMinutes * minuteMs,
    status := .confirmed, notes := request.notes,
    cancellationReason := none, cancelledAt := none, cancelledBy := none,
    price := service.price, currency := service.currency,
    customer := some (bumpStats service.price request.startTime customer),
    staff := some staff, service := some service,
    createdAt := now, updatedAt := now }

/-- `mockCreateBooking` (`booking.service.ts:154-247`).  Returns the result
envelope together with the store after the handler's mutations. -/
def mockCreateBooking (now : Int) (businessId : EntityId)
    (request : CreateBookingRequest) (s : MockStore) :
    OperationResult Booking × MockStore :=
  match s.services.find? (fun sv => decide (sv.id = request.serviceId)) with
  | none => (createNotFoundResult "Service", s)
  | some service =>
    match s.staff.find? (fun st => decide (st.id = request.staffId)) with
    | none => (createNotFoundResult "Staff member", s)
    | some staff =>
      if createHasConflict businessId request.staffId request.startTime
          (request.startTime + service.durationMinutes * minuteMs) s.bookings then
        (createErrorResult "SLOT_NOT_AVAILABLE"
          "The selected time slot is no longer available" 409, s)
      else
        match findOrCreateCustomer now businessId request s with
        | none =>
          (createErrorResult "CUSTOMER_NOT_FOUND"
            "Customer information is required" 400, s)
        | some (customer, customersAfterAdd, aliasP) =>
          (createSuccessResult
             (builtBooking now businessId request service staff customer) 201,
           { s with
             bookings := s.bookings ++
               [builtBooking now businessId request service staff customer],
             customers := bumpFirstCustomer aliasP
               (bumpStats service.price request.startTime) customersAfterAdd })

/-- The rescheduling conflict check of `mockUpdateBooking`
(`booking.service.ts:269-291`), run only when a new `startTime` is given.
Duration comes from the store lookup of the booking's service with the JS
falsy-or fallback `service?.durationMinutes || 60` (missing service or zero
duration both fall back to 60); candidate staff is
`request.staffId || booking.staffId`; the booking itself is excluded. -/
def updateHasConflict (businessId bookingId : EntityId)
    (request : UpdateBookingRequest) (booking : Booking) (s : MockStore) : Bool :=
  match request.startTime with
  | none => false
  | some st =>
    let dur : Int :=
      match s.services.find? (fun sv => decide (sv.id = booking.serviceId)) with
      | none => 60
      | some sv => if sv.durationMinutes = 0 then 60 else sv.durationMinutes
    s.bookings.any fun b =>
      decide (b.id ≠ bookingId) && decide (b.businessId = businessId) &&
      decide (b.staffId = request.staffId.getD booking.staffId) &&
      decide (b.status ≠ .cancelled) &&
      decide (b.startTime < st + dur * minuteMs) && decide (b.endTime > st)

/-- The merge `{...this.bookings[index], ...updates}` applied by
`mockStore.updateBooking` for `mockUpdateBooking`'s updates object
(`booking.service.ts:293-305`): defined request fields overwrite, `updatedAt`
is refreshed, and `endTime` is recomputed from the found `booking`'s embedded
service only when both a new `startTime` and `booking.service` are present. -/
def mergeUpdate (now : Int) (request : UpdateBookingRequest) (booking : Booking)
    (b : Booking) : Booking :=
  { b with
    staffId := request.staffId.getD b.staffId,
    startTime := request.startTime.getD b.startTime,
    notes := match request.notes with
             | some n => some n
             | none => b.notes,
    updatedAt := now,
    endTime := match request.startTime, booking.service with
               | some st, some sv => st + sv.durationMinutes * minuteMs
               | _, _ => b.endTime }

/-- `mockUpdateBooking` (`booking.service.ts:249-309`). -/
def mockUpdateBooking (now : Int) (businessId bookingId : EntityId)
    (request : UpdateBookingRequest) (s : MockStore) :
    OperationResult Booking × MockStore :=
  match s.bookings.find? (fun b => decide (b.id = bookingId) && decide (b.businessId = businessId)) with
  | none => (createNotFoundResult "Booking", s)
  | some booking =>
    if booking.status = .cancelled ∨ booking.status = .completed then
      (createErrorResult "BAD_REQUEST"
        ("Cannot update a " ++ statusText booking.status ++ " booking") 400, s)
    else if updateHasConflict businessId bookingId request booking s then
      (createErrorResult "SLOT_NOT_AVAILABLE"
        "The selected time slot is not available" 409, s)
    else
      ({ isSuccess := true,
         data := (storeUpdateBooking bookingId (mergeUpdate now request booking)
           s.bookings).find? (fun b => decide (b.id = bookingId)),
         error := none, statusCode := 200 },
       { s with
           bookings := storeUpdateBooking bookingId
             (mergeUpdate now request booking) s.bookings })

/-- The status patch written by `mockCancelBooking`
(`booking.service.ts:338-344`). -/
def cancelPatch (now : Int) (request : Option CancelBookingRequest)
    (b : Booking) : Booking :=
  { b with status := .cancelled,
           cancellationReason := request.bind (fun r => r.reason),
           cancelledAt := some now,
           cancelledBy := some "staff",
           updatedAt := now }

/-- `mockCancelBooking` (`booking.service.ts:311-348`). -/
def mockCancelBooking (now : Int) (businessId bookingId : EntityId)
    (request : Option CancelBookingRequest) (s : MockStore) :
    OperationResult Booking × MockStore :=
  match s.bookings.find? (fun b => decide (b.id = bookingId) && decide (b.businessId = businessId)) with
  | none => (createNotFoundResult "Booking", s)
  | some booking =>
    if booking.status = .cancelled then
      (createErrorResult "BOOKING_ALREADY_CANCELLED"
        "This booking has already been cancelled" 400, s)
    else if booking.status = .completed then
      (createErrorResult "BAD_REQUEST" "Cannot cancel a completed booking" 400, s)
    else
      ({ isSuccess := true,
         data := (storeUpdateBooking bookingId (cancelPatch now request)
           s.bookings).find? (fun b => decide (b.id = bookingId)),
         error := none, statusCode := 200 },
       { s with
           bookings := storeUpdateBooking bookingId (cancelPatch now request)
             s.bookings })

/-- The status patch written by `mockConfirmBooking`. -/
def confirmPatch (now : Int) (b : Booking) : Booking :=
  { b with status := .confirmed, updatedAt := now }

/-- `mockConfirmBooking` (`booking.service.ts:350-372`). -/
def mockConfirmBooking (now : Int) (businessId bookingId : EntityId)
    (s : MockStore) : OperationResult Booking × MockStore :=
  match s.bookings.find? (fun b => decide (b.id = bookingId) && decide (b.businessId = businessId)) with
  | none => (createNotFoundResult "Booking", s)
  | some booking =>
    if booking.status ≠ .pending then
      (createErrorResult "BAD_REQUEST" "Only pending bookings can be confirmed" 400, s)
    else
      ({ isSuccess := true,
         data := (storeUpdateBooking bookingId (confirmPatch now)
           s.bookings).find? (fun b => decide (b.id = bookingId)),
         error := none, statusCode := 200 },
       { s with
           bookings := storeUpdateBooking bookingId (confirmPatch now)
             s.bookings })

/-- The status patch written by `mockCompleteBooking`. -/
def completePatch (now : Int) (b : Booking) : Booking :=
  { b with status := .completed, updatedAt := now }

/-- `mockCompleteBooking` (`booking.service.ts:374-396`). -/
def mockCompleteBooking (now : Int) (businessId bookingId : EntityId)
    (s : MockStore) : OperationResult Booking × MockStore :=
  match s.bookings.find? (fun b => decide (b.id = bookingId) && decide (b.businessId = businessId)) with
  | none => (createNotFoundResult "Booking", s)
  | some booking =>
    if booking.status = .cancelled then
      (createErrorResult "BAD_REQUEST" "Cannot complete a cancelled booking" 400, s)
    else
      ({ isSuccess := true,
         data := (storeUpdateBooking bookingId (completePatch now)
           s.bookings).find? (fun b => decide (b.id = bookingId)),
         error := none, statusCode := 200 },
       { s with
           bookings := storeUpdateBooking bookingId (completePatch now)
             s.bookings })

/-- The status patch written by `mockMarkNoShow`. -/
def noShowPatch (now : Int) (b : Booking) : Booking :=
  { b with status := .no_show, updatedAt := now }

/-- `mockMarkNoShow` (`booking.service.ts:398-420`). -/
def mockMarkNoShow (now : Int) (businessId bookingId : EntityId)
    (s : MockStore) : OperationResult Booking × MockStore :=
  match s.bookings.find? (fun b => decide (b.id = bookingId) && decide (b.businessId = businessId)) with
  | none => (createNotFoundResult "Booking", s)
  | some booking =>
    if booking.status = .cancelled ∨ booking.status = .completed then
      (createErrorResult "BAD_REQUEST"
        ("Cannot mark a " ++ statusText booking.status ++ " booking as no-show") 400, s)
    else
      ({ isSuccess := true,
         data := (storeUpdateBooking bookingId (noShowPatch now)
           s.bookings).find? (fun b => decide (b.id = bookingId)),
         error := none, statusCode := 200 },
       { s with
           bookings := storeUpdateBooking bookingId (noShowPatch now)
             s.bookings })

/-!
Specification-side predicates.  These are written from the spec's statements
(overlap of half-open intervals, buffer padding, aggregate folds) and are the
yardsticks the handler definitions above are measured against.
-/

/-- Two bookings are compatible when they do not overlap while both occupying
the same staff member of the same business: raw half-open `[start, end)`
intervals, cancelled bookings never occupy. -/
def Compat (b1 b2 : Booking) : Prop :=
  b1.businessId = b2.businessId → b1.staffId = b2.staffId →
  b1.status ≠ .cancelled → b2.status ≠ .cancelled →
  (b1.endTime ≤ b2.startTime ∨ b2.endTime ≤ b1.startTime)

instance (b1 b2 : Booking) : Decidable (Compat b1 b2) := by
  unfold Compat; infer_instance

/-- `b` is compatible with every booking of `l`. -/
def noConfB (b : Booking) (l : List Booking) : Bool :=
  l.all fun b2 => decide (Compat b b2)

/-- The raw no-double-booking invariant of a booking list: pairwise
compatibility. -/
def noDoubleB : List Booking → Bool
  | [] => true
  | b :: rest => noConfB b rest && noDoubleB rest

/-- Buffer-before of a booking, in minutes, taken from the embedded service
snapshot (the service the booking was created with); 0 when absent. -/
def padBeforeMin (b : Booking) : Int :=
  match b.service with
  | some sv => sv.bufferTimeBefore.getD 0
  | none => 0

/-- Buffer-after of a booking, in minutes, from the embedded service
snapshot; 0 when absent. -/
def padAfterMin (b : Booking) : Int :=
  match b.service with
  | some sv => sv.bufferTimeAfter.getD 0
  | none => 0

/-- Start of a booking's buffer-padded footprint. -/
def paddedStart (b : Booking) : Int := b.startTime - padBeforeMin b * minuteMs

/-- End of a booking's buffer-padded footprint. -/
def paddedEnd (b : Booking) : Int := b.endTime + padAfterMin b * minuteMs

/-- Compatibility with buffer padding, as claimed by the spec: the padded
footprints of two non-cancelled bookings of the same staff must not overlap. -/
def CompatPadded (b1 b2 : Booking) : Prop :=
  b1.businessId = b2.businessId → b1.staffId = b2.staffId →
  b1.status ≠ .cancelled → b2.status ≠ .cancelled →
  (paddedEnd b1 ≤ paddedStart b2 ∨ paddedEnd b2 ≤ paddedStart b1)

instance (b1 b2 : Booking) : Decidable (CompatPadded b1 b2) := by
  unfold CompatPadded; infer_instance

/-- The buffer-padded no-double-booking invariant claimed by the spec. -/
def noDoublePaddedB : List Booking → Bool
  | [] => true
  | b :: rest => (rest.all fun b2 => decide (CompatPadded b b2)) && noDoublePaddedB rest

/-- A booking counts towards `customer.totalBookings`: belongs to the
customer and is not cancelled. -/
def countsAsVisit (cid : EntityId) (b : Booking) : Bool :=
  decide (b.customerId = cid) && decide (b.status ≠ .cancelled)

/-- A booking counts towards `customer.totalSpent`: belongs to the customer
and has status confirmed or completed. -/
def countsAsSpend (cid : EntityId) (b : Booking) : Bool :=
  decide (b.customerId = cid) &&
  (decide (b.status = .confirmed) || decide (b.status = .completed))

/-- Independent fold: the number of non-cancelled bookings of customer
`cid`. -/
def custBookingCount (cid : EntityId) (l : List Booking) : Int :=
  ((l.filter (countsAsVisit cid)).length : Int)

/-- Independent fold: the summed price of confirmed+completed bookings of
customer `cid`. -/
def custSpentTotal (cid : EntityId) (l : List Booking) : Int :=
  ((l.filter (countsAsSpend cid)).map Booking.price).sum

/-- A customer record agrees with the folds over a booking ledger. -/
def AggOk (c : Customer) (l : List Booking) : Prop :=
  c.totalBookings = custBookingCount c.id l ∧ c.totalSpent = custSpentTotal c.id l

instance (c : Customer) (l : List Booking) : Decidable (AggOk c l) := by
  unfold AggOk; infer_instance

/-- The aggregation invariant of a store: every customer's stored totals
equal the folds over the booking ledger. -/
def aggInvB (s : MockStore) : Bool :=
  s.customers.all fun c => decide (AggOk c s.bookings)

/-- An id is not a `customer-` timestamp id with stamp `≥ t`. -/
def idStampBelow (t : Int) : EntityId → Bool
  | .customerStamp m => decide (m < t)
  | _ => true

/-- All customer ids of the store carry timestamps below `t` (freshness bound
for ids to be generated at instants `≥ t`). -/
def custStampsBelow (t : Int) (cs : List Customer) : Bool :=
  cs.all fun c => idStampBelow t c.id

/-- All `customerId` references of the ledger carry timestamps below `t`. -/
def bkCustStampsBelow (t : Int) (l : List Booking) : Bool :=
  l.all fun b => idStampBelow t b.customerId

/-- Well-formedness for the aggregation argument: the aggregation invariant,
pairwise distinct customer ids, and freshness of all customer-id timestamps
relative to the clock bound `t`. -/
def aggWFB (t : Int) (s : MockStore) : Bool :=
  aggInvB s && decide (s.customers.map Customer.id).Nodup &&
  custStampsBelow t s.customers && bkCustStampsBelow t s.bookings

/-- Ledger mutations quantified over in the invariant claims. -/
inductive LedgerOp where
  | create (now : Int) (businessId : EntityId) (req : CreateBookingRequest)
  | cancel (now : Int) (businessId bookingId : EntityId)
      (req : Option CancelBookingRequest)
  | update (now : Int) (businessId bookingId : EntityId)
      (req : UpdateBookingRequest)

/-- State effect of one ledger operation. -/
def applyLedgerOp (op : LedgerOp) (s : MockStore) : MockStore :=
  match op with
  | .create now biz req => (mockCreateBooking now biz req s).2
  | .cancel now biz bid req => (mockCancelBooking now biz bid req s).2
  | .update now biz bid req => (mockUpdateBooking now biz bid req s).2

/-- State effect of a sequence of ledger operations. -/
def applyLedgerOps (ops : List LedgerOp) (s : MockStore) : MockStore :=
  ops.foldl (fun st op => applyLedgerOp op st) s

/-- `true` when the operation is a create or cancel (the operations for which
the amended no-double-booking invariant is preserved). -/
def isCreateOrCancel : LedgerOp → Bool
  | .create _ _ _ => true
  | .cancel _ _ _ _ => true
  | .update _ _ _ _ => false

/-!
Lemmas about the raw no-double-booking invariant.
-/

theorem Compat.symm {b1 b2 : Booking} (h : Compat b1 b2) : Compat b2 b1 := by
  intro h1 h2 h3 h4
  rcases h h1.symm h2.symm h4 h3 with h5 | h5
  · exact Or.inr h5
  · exact Or.inl h5

theorem compat_of_cancelled_left {b1 b2 : Booking} (h : b1.status = .cancelled) :
    Compat b1 b2 :=
  fun _ _ h3 _ => absurd h h3

theorem compat_of_cancelled_right {b1 b2 : Booking} (h : b2.status = .cancelled) :
    Compat b1 b2 :=
  fun _ _ _ h4 => absurd h h4

theorem noConfB_iff {b : Booking} {l : List Booking} :
    noConfB b l = true ↔ ∀ b2 ∈ l, Compat b b2 := by
  simp [noConfB]

theorem noDoubleB_cons {b : Booking} {l : List Booking} :
    noDoubleB (b :: l) = (noConfB b l && noDoubleB l) := rfl

theorem noDoubleB_append_single {l : List Booking} {nb : Booking}
    (h : noDoubleB l = true) (hc : ∀ b ∈ l, Compat nb b) :
    noDoubleB (l ++ [nb]) = true := by
  induction l with
  | nil => simp [noDoubleB, noConfB]
  | cons b rest ih =>
    rw [noDoubleB_cons, Bool.and_eq_true] at h
    rw [List.cons_append, noDoubleB_cons, Bool.and_eq_true]
    refine ⟨?_, ih h.2 (fun b2 hb2 => hc b2 (List.mem_cons_of_mem _ hb2))⟩
    rw [noConfB_iff]
    intro b2 hb2
    rcases List.mem_append.mp hb2 with hm | hm
    · exact noConfB_iff.mp h.1 b2 hm
    · rw [List.mem_singleton] at hm
      subst hm
      exact (hc b (List.mem_cons_self _ _)).symm

theorem mem_storeUpdateBooking {id : EntityId} {f : Booking → Booking}
    {l : List Booking} {x : Booking} (hx : x ∈ storeUpdateBooking id f l) :
    x ∈ l ∨ ∃ b, b ∈ l ∧ x = f b := by
  induction l with
  | nil => simp [storeUpdateBooking] at hx
  | cons b rest ih =>
    simp only [storeUpdateBooking] at hx
    by_cases hb : b.id = id
    · rw [if_pos hb] at hx
      rcases List.mem_cons.mp hx with h1 | h1
      · exact Or.inr ⟨b, List.mem_cons_self _ _, h1⟩
      · exact Or.inl (List.mem_cons_of_mem _ h1)
    · rw [if_neg hb] at hx
      rcases List.mem_cons.mp hx with h1 | h1
      · exact Or.inl (h1 ▸ List.mem_cons_self _ _)
      · rcases ih h1 with h2 | ⟨b2, hb2, he⟩
        · exact Or.inl (List.mem_cons_of_mem _ h2)
        · exact Or.inr ⟨b2, List.mem_cons_of_mem _ hb2, he⟩

theorem noConfB_storeUpdate_cancelled {x : Booking} {id : EntityId}
    {f : Booking → Booking} {l : List Booking}
    (hf : ∀ b, (f b).status = .cancelled) (h : noConfB x l = true) :
    noConfB x (storeUpdateBooking id f l) = true := by
  rw [noConfB_iff] at h ⊢
  intro b2 hb2
  rcases mem_storeUpdateBooking hb2 with hm | ⟨b, _, he⟩
  · exact h b2 hm
  · subst he
    exact compat_of_cancelled_right (hf b)

theorem noDoubleB_storeUpdate_cancelled {id : EntityId} {f : Booking → Booking}
    {l : List Booking} (hf : ∀ b, (f b).status = .cancelled)
    (h : noDoubleB l = true) :
    noDoubleB (storeUpdateBooking id f l) = true := by
  induction l with
  | nil => simpa [storeUpdateBooking] using h
  | cons b rest ih =>
    rw [noDoubleB_cons, Bool.and_eq_true] at h
    simp only [storeUpdateBooking]
    by_cases hb : b.id = id
    · rw [if_pos hb, noDoubleB_cons, Bool.and_eq_true]
      refine ⟨?_, h.2⟩
      rw [noConfB_iff]
      intro b2 _
      exact compat_of_cancelled_left (hf b)
    · rw [if_neg hb, noDoubleB_cons, Bool.and_eq_true]
      exact ⟨noConfB_storeUpdate_cancelled hf h.1, ih h.2⟩

theorem createHasConflict_false_compat {biz sid : EntityId} {st e : Int}
    {l : List Booking} (h : createHasConflict biz sid st e l = false)
    {b : Booking} (hb : b ∈ l) (h1 : b.businessId = biz) (h2 : b.staffId = sid)
    (h3 : b.status ≠ .cancelled) :
    e ≤ b.startTime ∨ b.endTime ≤ st := by
  by_contra hcon
  push_neg at hcon
  have htrue : createHasConflict biz sid st e l = true := by
    unfold createHasConflict
    rw [List.any_eq_true]
    exact ⟨b, hb, by simp [h1, h2, h3, hcon.1, hcon.2]⟩
  rw [htrue] at h
  exact absurd h (by decide)

theorem create_preserves_noDouble (now : Int) (biz : EntityId)
    (req : CreateBookingRequest) (s : MockStore)
    (h : noDoubleB s.bookings = true) :
    noDoubleB ((mockCreateBooking now biz req s).2).bookings = true := by
  unfold mockCreateBooking
  split
  · exact h
  next service hsv =>
    split
    · exact h
    next staff hst =>
      split
      · exact h
      next hc =>
        split
        · exact h
        next customer customersAfterAdd aliasP hres =>
          show noDoubleB (s.bookings ++
            [builtBooking now biz req service staff customer]) = true
          rw [Bool.not_eq_true] at hc
          apply noDoubleB_append_single h
          intro b hb
          intro h1 h2 _ h4
          simp only [builtBooking] at h1 h2 ⊢
          exact createHasConflict_false_compat hc hb h1.symm h2.symm h4

theorem cancel_preserves_noDouble (now : Int) (biz bid : EntityId)
    (req : Option CancelBookingRequest) (s : MockStore)
    (h : noDoubleB s.bookings = true) :
    noDoubleB ((mockCancelBooking now biz bid req s).2).bookings = true := by
  unfold mockCancelBooking
  split
  · exact h
  next booking hb =>
    split
    · exact h
    · split
      · exact h
      · exact noDoubleB_storeUpdate_cancelled (fun b => rfl) h

theorem createOrCancel_preserves_noDouble (op : LedgerOp) (s : MockStore)
    (hop : isCreateOrCancel op = true) (h : noDoubleB s.bookings = true) :
    noDoubleB (applyLedgerOp op s).bookings = true := by
  cases op with
  | create now biz req => exact create_preserves_noDouble now biz req s h
  | cancel now biz bid req => exact cancel_preserves_noDouble now biz bid req s h
  | update now biz bid req => exact absurd hop (by simp [isCreateOrCancel])

/-!
Concrete fixtures for witnesses and counterexamples.
-/

/-- Fixture business id. -/
def bizA : EntityId := .str "business-1"

/-- Second fixture business id. -/
def bizB : EntityId := .str "business-2"

/-- Fixture staff ids. -/
def staffId1 : EntityId := .str "staff-1"

/-- Second fixture staff id. -/
def staffId2 : EntityId := .str "staff-2"

/-- Fixture staff records. -/
def staffRec1 : Staff := { id := staffId1, businessId := bizA }

/-- Second fixture staff record. -/
def staffRec2 : Staff := { id := staffId2, businessId := bizA }

/-- Fixture service: 60 minutes, 15-minute buffers on both sides. -/
def svcBuf : Service :=
  { id := .str "service-buf", businessId := bizA, durationMinutes := 60,
    price := 50, currency := "USD",
    bufferTimeBefore := some 15, bufferTimeAfter := some 15 }

/-- Fixture service: 60 minutes, no buffers. -/
def svcPlain : Service :=
  { id := .str "service-plain", businessId := bizA, durationMinutes := 60,
    price := 50, currency := "USD",
    bufferTimeBefore := none, bufferTimeAfter := none }

/-- Fixture registered customer of business `bizA`. -/
def custA : Customer :=
  { id := .str "customer-a", businessId := bizA, email := "a@example.com",
    firstName := "Ada", lastName := "A", phoneNumber := none,
    totalBookings := 0, totalSpent := 0, lastVisitAt := none,
    createdAt := 0, updatedAt := 0 }

/-- Create request for `custA` with `svcBuf` on `staffId1` at instant `st`. -/
def reqBufAt (st : Int) : CreateBookingRequest :=
  { customerId := some custA.id, staffId := staffId1, serviceId := svcBuf.id,
    startTime := st, notes := none, customerEmail := none,
    customerFirstName := none, customerLastName := none,
    customerPhoneNumber := none }

/-- Store for the C1 counterexample: one staff, the buffered service, one
customer, empty ledger. -/
def fixStore : MockStore :=
  { staff := [staffRec1], services := [svcBuf], customers := [custA],
    bookings := [], workingHours := [] }

/-- C1: No-double-booking invariant as claimed — with buffer padding — for
states reachable by createBooking/updateBooking/cancelBooking.  FALSE: the
conflict checks never apply the service's buffers, so two back-to-back
creates with a buffered service reach a state whose padded footprints
overlap.  Starting from a store satisfying the padded invariant, two
successful creates at 0 and 60 minutes with a 15/15-buffered 60-minute
service violate it. -/
theorem noDouble_padded_counterexample :
    noDoublePaddedB fixStore.bookings = true ∧
    ((mockCreateBooking 1000 bizA (reqBufAt 0) fixStore).1).isSuccess = true ∧
    ((mockCreateBooking 2000 bizA (reqBufAt 3600000)
        (mockCreateBooking 1000 bizA (reqBufAt 0) fixStore).2).1).isSuccess = true ∧
    noDoublePaddedB
      ((applyLedgerOps
        [LedgerOp.create 1000 bizA (reqBufAt 0),
         LedgerOp.create 2000 bizA (reqBufAt 3600000)] fixStore)).bookings
      = false := by
  decide

/-- C1 (amended): with buffers NOT applied (raw half-open intervals, per
business and staff) and restricted to createBooking/cancelBooking operations
(updateBooking can break the invariant by moving a booking to another staff
without any conflict check), every store state reached from a state
satisfying the invariant still satisfies it: no two non-cancelled bookings of
the same business and staff overlap. -/
theorem noDouble_raw_createCancel_invariant (ops : List LedgerOp) (s : MockStore)
    (hops : ∀ op ∈ ops, isCreateOrCancel op = true)
    (h : noDoubleB s.bookings = true) :
    noDoubleB (applyLedgerOps ops s).bookings = true := by
  induction ops generalizing s with
  | nil => exact h
  | cons op rest ih =>
    exact ih (applyLedgerOp op s)
      (fun o ho => hops o (List.mem_cons_of_mem _ ho))
      (createOrCancel_preserves_noDouble op s (hops op (List.mem_cons_self _ _)) h)

/-- Witness for the amended C1 theorem at a concrete input: two creates and a
cancel on the fixture store. -/
theorem noDouble_raw_createCancel_invariant_witness :
    (∀ op ∈ [LedgerOp.create 1000 bizA (reqBufAt 0),
             LedgerOp.create 2000 bizA (reqBufAt 3600000),
             LedgerOp.cancel 3000 bizA (EntityId.bookingStamp 1000) none],
       isCreateOrCancel op = true) ∧
    noDoubleB fixStore.bookings = true ∧
    noDoubleB (applyLedgerOps
      [LedgerOp.create 1000 bizA (reqBufAt 0),
       LedgerOp.create 2000 bizA (reqBufAt 3600000),
       LedgerOp.cancel 3000 bizA (EntityId.bookingStamp 1000) none]
      fixStore).bookings = true :=
  ⟨by decide, by decide,
    noDouble_raw_createCancel_invariant _ fixStore (by decide) (by decide)⟩

/-!
Lemmas about the aggregation invariant.
-/

theorem custBookingCount_append (cid : EntityId) (l : List Booking) (nb : Booking) :
    custBookingCount cid (l ++ [nb]) =
    custBookingCount cid l + (if countsAsVisit cid nb = true then 1 else 0) := by
  unfold custBookingCount
  rw [List.filter_append]
  by_cases h : countsAsVisit cid nb = true <;> simp [h, List.filter]

theorem custSpentTotal_append (cid : EntityId) (l : List Booking) (nb : Booking) :
    custSpentTotal cid (l ++ [nb]) =
    custSpentTotal cid l + (if countsAsVisit cid nb = true then 0 else 0) +
      (if countsAsSpend cid nb = true then nb.price else 0) := by
  unfold custSpentTotal
  rw [List.filter_append]
  by_cases h : countsAsSpend cid nb = true <;> simp [h, List.filter]

theorem AggOk_append_other {c : Customer} {l : List Booking} {nb : Booking}
    (h : AggOk c l) (hne : nb.customerId ≠ c.id) : AggOk c (l ++ [nb]) := by
  obtain ⟨h1, h2⟩ := h
  have hv : countsAsVisit c.id nb = false := by
    simp [countsAsVisit, hne]
  have hs : countsAsSpend c.id nb = false := by
    simp [countsAsSpend, hne]
  constructor
  · rw [custBookingCount_append, hv]
    simpa using h1
  · rw [custSpentTotal_append, hv, hs]
    simpa using h2

theorem AggOk_bump {c : Customer} {l : List Booking} {nb : Booking} {price st : Int}
    (h : AggOk c l) (hid : nb.customerId = c.id) (hstat : nb.status = .confirmed)
    (hp : nb.price = price) : AggOk (bumpStats price st c) (l ++ [nb]) := by
  obtain ⟨h1, h2⟩ := h
  have hv : countsAsVisit c.id nb = true := by
    simp [countsAsVisit, hid, hstat]
  have hs : countsAsSpend c.id nb = true := by
    simp [countsAsSpend, hid, hstat]
  constructor
  · show c.totalBookings + 1 = custBookingCount c.id (l ++ [nb])
    rw [custBookingCount_append, hv, h1]
    simp
  · show c.totalSpent + price = custSpentTotal c.id (l ++ [nb])
    rw [custSpentTotal_append, hv, hs, h2, hp]
    simp

theorem mem_bumpFirstCustomer {p : Customer → Bool} {f : Customer → Customer}
    {cs : List Customer} {x : Customer} (hx : x ∈ bumpFirstCustomer p f cs) :
    x ∈ cs ∨ ∃ c, c ∈ cs ∧ x = f c := by
  induction cs with
  | nil => simp [bumpFirstCustomer] at hx
  | cons c rest ih =>
    simp only [bumpFirstCustomer] at hx
    by_cases hc : p c = true
    · rw [if_pos hc] at hx
      rcases List.mem_cons.mp hx with h1 | h1
      · exact Or.inr ⟨c, List.mem_cons_self _ _, h1⟩
      · exact Or.inl (List.mem_cons_of_mem _ h1)
    · rw [if_neg hc] at hx
      rcases List.mem_cons.mp hx with h1 | h1
      · exact Or.inl (h1 ▸ List.mem_cons_self _ _)
      · rcases ih h1 with h2 | ⟨c2, hc2, he⟩
        · exact Or.inl (List.mem_cons_of_mem _ h2)
        · exact Or.inr ⟨c2, List.mem_cons_of_mem _ hc2, he⟩

theorem map_id_bumpFirstCustomer {p : Customer → Bool} {f : Customer → Customer}
    {cs : List Customer} (hf : ∀ c, (f c).id = c.id) :
    (bumpFirstCustomer p f cs).map Customer.id = cs.map Customer.id := by
  induction cs with
  | nil => rfl
  | cons c rest ih =>
    simp only [bumpFirstCustomer]
    by_cases hc : p c = true
    · rw [if_pos hc]
      simp [hf]
    · rw [if_neg hc]
      simp [ih]

theorem bumpFirstCustomer_append_last {cs : List Customer} {x : Customer}
    {p : Customer → Bool} {f : Customer → Customer}
    (h : ∀ c ∈ cs, p c = false) (hx : p x = true) :
    bumpFirstCustomer p f (cs ++ [x]) = cs ++ [f x] := by
  induction cs with
  | nil => simp [bumpFirstCustomer, hx]
  | cons c rest ih =>
    have hc := h c (List.mem_cons_self _ _)
    simp only [List.cons_append, bumpFirstCustomer, hc]
    simp [ih (fun d hd => h d (List.mem_cons_of_mem _ hd))]

theorem aggAll_bumpFirst {cs : List Customer} {l : List Booking} {nb : Booking}
    {p : Customer → Bool} {c0 : Customer} {price st : Int}
    (hfind : cs.find? p = some c0)
    (hInv : ∀ c ∈ cs, AggOk c l)
    (hNodup : (cs.map Customer.id).Nodup)
    (hid : nb.customerId = c0.id) (hstat : nb.status = .confirmed)
    (hp : nb.price = price) :
    ∀ c ∈ bumpFirstCustomer p (bumpStats price st) cs, AggOk c (l ++ [nb]) := by
  induction cs with
  | nil => simp at hfind
  | cons c rest ih =>
    have hNodup' : c.id ∉ rest.map Customer.id ∧ (rest.map Customer.id).Nodup := by
      rw [List.map_cons, List.nodup_cons] at hNodup
      exact hNodup
    by_cases hpc : p c = true
    · have hc0 : c0 = c := by
        rw [List.find?_cons_of_pos _ hpc] at hfind
        exact (Option.some.inj hfind).symm
      subst hc0
      simp only [bumpFirstCustomer, if_pos hpc]
      intro d hd
      rcases List.mem_cons.mp hd with rfl | hdr
      · exact AggOk_bump (hInv c0 (List.mem_cons_self _ _)) hid hstat hp
      · apply AggOk_append_other (hInv d (List.mem_cons_of_mem _ hdr))
        rw [hid]
        intro he
        exact hNodup'.1 (he ▸ List.mem_map_of_mem Customer.id hdr)
    · have hfind' : rest.find? p = some c0 := by
        rw [List.find?_cons_of_neg _ hpc] at hfind
        exact hfind
      simp only [bumpFirstCustomer, if_neg hpc]
      intro d hd
      rcases List.mem_cons.mp hd with rfl | hdr
      · apply AggOk_append_other (hInv d (List.mem_cons_self _ _))
        rw [hid]
        intro he
        have hc0mem : c0 ∈ rest := List.mem_of_find?_eq_some hfind'
        exact hNodup'.1 (he ▸ List.mem_map_of_mem Customer.id hc0mem)
      · exact ih hfind' (fun x hx => hInv x (List.mem_cons_of_mem _ hx))
          hNodup'.2 d hdr

theorem custBookingCount_eq_zero {cid : EntityId} {l : List Booking}
    (h : ∀ b ∈ l, b.customerId ≠ cid) : custBookingCount cid l = 0 := by
  unfold custBookingCount
  have : l.filter (countsAsVisit cid) = [] := by
    rw [List.filter_eq_nil_iff]
    intro b hb
    simp [countsAsVisit, h b hb]
  rw [this]
  rfl

theorem custSpentTotal_eq_zero {cid : EntityId} {l : List Booking}
    (h : ∀ b ∈ l, b.customerId ≠ cid) : custSpentTotal cid l = 0 := by
  unfold custSpentTotal
  have : l.filter (countsAsSpend cid) = [] := by
    rw [List.filter_eq_nil_iff]
    intro b hb
    simp [countsAsSpend, h b hb]
  rw [this]
  rfl

theorem aggAll_append_new {cs : List Customer} {l : List Booking} {nb : Booking}
    {newC : Customer} {price st : Int}
    (hInv : ∀ c ∈ cs, AggOk c l)
    (hfreshC : ∀ c ∈ cs, c.id ≠ newC.id)
    (hfreshB : ∀ b ∈ l, b.customerId ≠ newC.id)
    (hid : nb.customerId = newC.id) (hstat : nb.status = .confirmed)
    (hp : nb.price = price)
    (h0 : newC.totalBookings = 0) (h00 : newC.totalSpent = 0) :
    ∀ c ∈ cs ++ [bumpStats price st newC], AggOk c (l ++ [nb]) := by
  intro d hd
  rcases List.mem_append.mp hd with hdl | hdr
  · apply AggOk_append_other (hInv d hdl)
    rw [hid]
    intro he
    exact hfreshC d hdl he.symm
  · rw [List.mem_singleton] at hdr
    subst hdr
    have hbase : AggOk newC l :=
      ⟨by rw [custBookingCount_eq_zero hfreshB]; exact h0,
       by rw [custSpentTotal_eq_zero hfreshB]; exact h00⟩
    exact AggOk_bump hbase hid hstat hp

theorem idStampBelow_mono {t t' : Int} (h : t ≤ t') {e : EntityId}
    (he : idStampBelow t e = true) : idStampBelow t' e = true := by
  cases e with
  | str s => rfl
  | bookingStamp m => rfl
  | customerStamp m =>
    simp only [idStampBelow, decide_eq_true_eq] at he ⊢
    omega

theorem custStampsBelow_mono {t t' : Int} (h : t ≤ t') {cs : List Customer}
    (hs : custStampsBelow t cs = true) : custStampsBelow t' cs = true := by
  rw [custStampsBelow, List.all_eq_true] at hs ⊢
  exact fun c hc => idStampBelow_mono h (hs c hc)

theorem bkCustStampsBelow_mono {t t' : Int} (h : t ≤ t') {l : List Booking}
    (hs : bkCustStampsBelow t l = true) : bkCustStampsBelow t' l = true := by
  rw [bkCustStampsBelow, List.all_eq_true] at hs ⊢
  exact fun b hb => idStampBelow_mono h (hs b hb)

theorem aggWFB_parts {t : Int} {s : MockStore} :
    aggWFB t s = true ↔
    (aggInvB s = true ∧ (s.customers.map Customer.id).Nodup ∧
     custStampsBelow t s.customers = true ∧ bkCustStampsBelow t s.bookings = true) := by
  unfold aggWFB
  simp only [Bool.and_eq_true, decide_eq_true_eq]
  tauto

theorem aggWFB_mono {t t' : Int} (h : t ≤ t') {s : MockStore}
    (hs : aggWFB t s = true) : aggWFB t' s = true := by
  rw [aggWFB_parts] at hs ⊢
  exact ⟨hs.1, hs.2.1, custStampsBelow_mono h hs.2.2.1,
    bkCustStampsBelow_mono h hs.2.2.2⟩

theorem create_step_aggWF {t : Int} (now : Int) (biz : EntityId)
    (req : CreateBookingRequest) (s : MockStore)
    (ht : t ≤ now) (h : aggWFB t s = true) :
    aggWFB (now + 1) (mockCreateBooking now biz req s).2 = true := by
  have hmono : aggWFB (now + 1) s = true := aggWFB_mono (by omega) h
  rw [aggWFB_parts] at h
  obtain ⟨hInvB, hNodup, hCS, hBS⟩ := h
  have hInv : ∀ c ∈ s.customers, AggOk c s.bookings := by
    intro c hc
    have := List.all_eq_true.mp hInvB c hc
    simpa using this
  have hCS' : ∀ c ∈ s.customers, idStampBelow t c.id = true :=
    fun c hc => List.all_eq_true.mp hCS c hc
  have hBS' : ∀ b ∈ s.bookings, idStampBelow t b.customerId = true :=
    fun b hb => List.all_eq_true.mp hBS b hb
  unfold mockCreateBooking
  split
  · exact hmono
  next service hsv =>
    split
    · exact hmono
    next staff hst =>
      split
      · exact hmono
      next hc =>
        split
        · exact hmono
        next customer customersAfterAdd aliasP hres =>
          show aggWFB (now + 1)
            { s with
              bookings := s.bookings ++
                [builtBooking now biz req service staff customer],
              customers := bumpFirstCustomer aliasP
                (bumpStats service.price req.startTime) customersAfterAdd } = true
          unfold findOrCreateCustomer at hres
          split at hres
          next c hfound =>
            simp only [Option.some.injEq, Prod.mk.injEq] at hres
            obtain ⟨rfl, rfl, rfl⟩ := hres
            cases hcid : req.customerId with
            | none =>
              rw [hcid] at hfound
              cases hfound
            | some cid =>
              rw [hcid] at hfound
              have hcid_eq : c.id = cid := by
                have := List.find?_some hfound
                simpa using this
              subst hcid_eq
              have hcmem : c ∈ s.customers := List.mem_of_find?_eq_some hfound
              rw [aggWFB_parts]
              refine ⟨?_, ?_, ?_, ?_⟩
              · unfold aggInvB
                rw [List.all_eq_true]
                intro d hd
                rw [decide_eq_true_eq]
                exact aggAll_bumpFirst hfound hInv hNodup rfl rfl rfl d hd
              · show ((bumpFirstCustomer _ _ s.customers).map Customer.id).Nodup
                rw [map_id_bumpFirstCustomer (f := bumpStats service.price req.startTime) (fun c => rfl)]
                exact hNodup
              · rw [custStampsBelow, List.all_eq_true]
                intro d hd
                rcases mem_bumpFirstCustomer hd with h1 | ⟨c2, hc2, rfl⟩
                · exact idStampBelow_mono (by omega) (hCS' d h1)
                · show idStampBelow (now + 1) c2.id = true
                  exact idStampBelow_mono (by omega) (hCS' c2 hc2)
              · rw [bkCustStampsBelow, List.all_eq_true]
                intro b hb
                rcases List.mem_append.mp hb with h1 | h1
                · exact idStampBelow_mono (by omega) (hBS' b h1)
                · rw [List.mem_singleton] at h1
                  subst h1
                  show idStampBelow (now + 1) c.id = true
                  exact idStampBelow_mono (by omega) (hCS' c hcmem)
          next hnotfound =>
            split at hres
            · cases hres
            next em hem =>
              split at hres
              next c hemail =>
                simp only [Option.some.injEq, Prod.mk.injEq] at hres
                obtain ⟨rfl, rfl, rfl⟩ := hres
                have hfound' : s.customers.find? (fun d => decide (d.email = em)) = some c :=
                  hemail
                have hcmem : c ∈ s.customers := List.mem_of_find?_eq_some hfound'
                rw [aggWFB_parts]
                refine ⟨?_, ?_, ?_, ?_⟩
                · unfold aggInvB
                  rw [List.all_eq_true]
                  intro d hd
                  rw [decide_eq_true_eq]
                  exact aggAll_bumpFirst hfound' hInv hNodup rfl rfl rfl d hd
                · show ((bumpFirstCustomer _ _ s.customers).map Customer.id).Nodup
                  rw [map_id_bumpFirstCustomer (f := bumpStats service.price req.startTime) (fun c => rfl)]
                  exact hNodup
                · rw [custStampsBelow, List.all_eq_true]
                  intro d hd
                  rcases mem_bumpFirstCustomer hd with h1 | ⟨c2, hc2, rfl⟩
                  · exact idStampBelow_mono (by omega) (hCS' d h1)
                  · show idStampBelow (now + 1) c2.id = true
                    exact idStampBelow_mono (by omega) (hCS' c2 hc2)
                · rw [bkCustStampsBelow, List.all_eq_true]
                  intro b hb
                  rcases List.mem_append.mp hb with h1 | h1
                  · exact idStampBelow_mono (by omega) (hBS' b h1)
                  · rw [List.mem_singleton] at h1
                    subst h1
                    show idStampBelow (now + 1) c.id = true
                    exact idStampBelow_mono (by omega) (hCS' c hcmem)
              next hemail =>
                simp only [Option.some.injEq, Prod.mk.injEq] at hres
                obtain ⟨rfl, rfl, rfl⟩ := hres
                have haliasF : ∀ c ∈ s.customers,
                    decide (c.id = EntityId.customerStamp now) = false := by
                  intro c hc
                  rw [decide_eq_false_iff_not]
                  intro he
                  have hx := hCS' c hc
                  rw [he] at hx
                  simp only [idStampBelow, decide_eq_true_eq] at hx
                  omega
                have hfreshC : ∀ c ∈ s.customers,
                    c.id ≠ (guestCustomer now biz req em).id := by
                  intro c hc he
                  have := haliasF c hc
                  rw [decide_eq_false_iff_not] at this
                  exact this he
                have hfreshB : ∀ b ∈ s.bookings,
                    b.customerId ≠ (guestCustomer now biz req em).id := by
                  intro b hb he
                  have hx := hBS' b hb
                  rw [he] at hx
                  simp only [guestCustomer, idStampBelow, decide_eq_true_eq] at hx
                  omega
                rw [bumpFirstCustomer_append_last haliasF (by simp [guestCustomer])]
                rw [aggWFB_parts]
                refine ⟨?_, ?_, ?_, ?_⟩
                · unfold aggInvB
                  rw [List.all_eq_true]
                  intro d hd
                  rw [decide_eq_true_eq]
                  exact aggAll_append_new hInv hfreshC hfreshB rfl rfl rfl rfl rfl d hd
                · show ((s.customers ++
                    [bumpStats service.price req.startTime (guestCustomer now biz req em)]).map
                      Customer.id).Nodup
                  rw [List.map_append, List.nodup_append]
                  refine ⟨hNodup, by simp, ?_⟩
                  intro a ha hb
                  simp only [List.map_cons, List.map_nil, List.mem_singleton] at hb
                  rcases List.mem_map.mp ha with ⟨c2, hc2, rfl⟩
                  exact hfreshC c2 hc2 hb
                · rw [custStampsBelow, List.all_eq_true]
                  intro d hd
                  rcases List.mem_append.mp hd with h1 | h1
                  · exact idStampBelow_mono (by omega) (hCS' d h1)
                  · rw [List.mem_singleton] at h1
                    subst h1
                    show idStampBelow (now + 1) (EntityId.customerStamp now) = true
                    simp only [idStampBelow, decide_eq_true_eq]
                    omega
                · rw [bkCustStampsBelow, List.all_eq_true]
                  intro b hb
                  rcases List.mem_append.mp hb with h1 | h1
                  · exact idStampBelow_mono (by omega) (hBS' b h1)
                  · rw [List.mem_singleton] at h1
                    subst h1
                    show idStampBelow (now + 1) (EntityId.customerStamp now) = true
                    simp only [idStampBelow, decide_eq_true_eq]
                    omega

/-- A sequence of createBooking calls (clock instant, business id, request),
applied left to right. -/
def runCreates : List (Int × EntityId × CreateBookingRequest) → MockStore → MockStore
  | [], s => s
  | (now, biz, req) :: rest, s => runCreates rest (mockCreateBooking now biz req s).2

/-- Clock discipline for a sequence of creates: the first call's instant is at
least the bound and later calls are strictly later (the ms clock advances
across the awaited mock delays between handler invocations). -/
def nowsChainB : Int → List (Int × EntityId × CreateBookingRequest) → Bool
  | _, [] => true
  | t, (now, _, _) :: rest => decide (t ≤ now) && nowsChainB (now + 1) rest

theorem runCreates_aggInv (l : List (Int × EntityId × CreateBookingRequest))
    (t : Int) (s : MockStore) (h : aggWFB t s = true)
    (hn : nowsChainB t l = true) : aggInvB (runCreates l s) = true := by
  induction l generalizing t s with
  | nil => exact (aggWFB_parts.mp h).1
  | cons x rest ih =>
    obtain ⟨now, biz, req⟩ := x
    rw [nowsChainB, Bool.and_eq_true, decide_eq_true_eq] at hn
    exact ih (now + 1) _ (create_step_aggWF now biz req s hn.1 h) hn.2

theorem cancel_customers_frame (now : Int) (biz bid : EntityId)
    (req : Option CancelBookingRequest) (s : MockStore) :
    ((mockCancelBooking now biz bid req s).2).customers = s.customers := by
  unfold mockCancelBooking
  split
  · rfl
  · split
    · rfl
    · split
      · rfl
      · rfl

theorem complete_customers_frame (now : Int) (biz bid : EntityId) (s : MockStore) :
    ((mockCompleteBooking now biz bid s).2).customers = s.customers := by
  unfold mockCompleteBooking
  split
  · rfl
  · split
    · rfl
    · rfl

/-- C2 is false as stated: after a successful create and a successful cancel
of that same booking, the customer's stored `totalBookings` is still 1 and
`totalSpent` still 50, while the independent folds over the ledger give 0 —
`mockCancelBooking` never recomputes customer aggregates. -/
theorem aggregation_counterexample :
    ((mockCreateBooking 1000 bizA (reqBufAt 0) fixStore).1).isSuccess = true ∧
    ((mockCancelBooking 2000 bizA (EntityId.bookingStamp 1000) none
        (mockCreateBooking 1000 bizA (reqBufAt 0) fixStore).2).1).isSuccess = true ∧
    (∃ c ∈ ((mockCancelBooking 2000 bizA (EntityId.bookingStamp 1000) none
        (mockCreateBooking 1000 bizA (reqBufAt 0) fixStore).2).2).customers,
      c.id = custA.id ∧ c.totalBookings = 1 ∧ c.totalSpent = 50 ∧
      custBookingCount c.id
        ((mockCancelBooking 2000 bizA (EntityId.bookingStamp 1000) none
          (mockCreateBooking 1000 bizA (reqBufAt 0) fixStore).2).2).bookings = 0 ∧
      custSpentTotal c.id
        ((mockCancelBooking 2000 bizA (EntityId.bookingStamp 1000) none
          (mockCreateBooking 1000 bizA (reqBufAt 0) fixStore).2).2).bookings = 0) := by
  decide

/-- C2 (amended): createBooking maintains the aggregation invariant — after
any sequence of creates (under distinct-forward clock instants and
well-formed customer ids), every customer's `totalBookings` equals the count
of their non-cancelled bookings and `totalSpent` the summed price of their
confirmed+completed bookings.  However, cancelBooking and completeBooking do
not touch customer records at all (cancellation does NOT remove the booking
from the stored totals). -/
theorem aggregation_amended :
    (∀ l t s, aggWFB t s = true → nowsChainB t l = true →
       aggInvB (runCreates l s) = true) ∧
    (∀ now biz bid req s,
       ((mockCancelBooking now biz bid req s).2).customers = s.customers) ∧
    (∀ now biz bid s,
       ((mockCompleteBooking now biz bid s).2).customers = s.customers) :=
  ⟨fun l t s h hn => runCreates_aggInv l t s h hn,
   fun now biz bid req s => cancel_customers_frame now biz bid req s,
   fun now biz bid s => complete_customers_frame now biz bid s⟩

/-- Witness for the amended C2 theorem at a concrete input: two creates on
the fixture store keep the aggregation invariant. -/
theorem aggregation_amended_witness :
    aggWFB 0 fixStore = true ∧
    nowsChainB 0 [(1000, bizA, reqBufAt 0), (2000, bizA, reqBufAt 7200000)] = true ∧
    aggInvB (runCreates [(1000, bizA, reqBufAt 0), (2000, bizA, reqBufAt 7200000)]
      fixStore) = true :=
  ⟨by decide, by decide,
   aggregation_amended.1 [(1000, bizA, reqBufAt 0), (2000, bizA, reqBufAt 7200000)]
     0 fixStore (by decide) (by decide)⟩

/-- C5: every successful createBooking persists status = confirmed,
endTime = startTime plus the resolved service's duration in minutes, and
snapshots the service's price and currency into the booking. -/
theorem create_success_postconditions (now : Int) (biz : EntityId)
    (req : CreateBookingRequest) (s : MockStore) (sv : Service) (b : Booking)
    (hsv : s.services.find? (fun v => decide (v.id = req.serviceId)) = some sv)
    (hb : ((mockCreateBooking now biz req s).1).data = some b) :
    b.status = .confirmed ∧ b.startTime = req.startTime ∧
    b.endTime = req.startTime + sv.durationMinutes * minuteMs ∧
    b.price = sv.price ∧ b.currency = sv.currency := by
  unfold mockCreateBooking at hb
  rw [hsv] at hb
  dsimp only at hb
  split at hb
  · simp [createNotFoundResult] at hb
  next staff hst =>
    split at hb
    · simp [createErrorResult] at hb
    next hc =>
      split at hb
      · simp [createErrorResult] at hb
      next customer customersAfterAdd aliasP hres =>
        simp only [createSuccessResult, Option.some.injEq] at hb
        subst hb
        exact ⟨rfl, rfl, rfl, rfl, rfl⟩

/-- The booking record produced by the witness create below. -/
def wBook : Booking := builtBooking 1000 bizA (reqBufAt 0) svcBuf staffRec1 custA

/-- Witness for C5 at a concrete input. -/
theorem create_success_postconditions_witness :
    fixStore.services.find? (fun v => decide (v.id = (reqBufAt 0).serviceId)) =
      some svcBuf ∧
    ((mockCreateBooking 1000 bizA (reqBufAt 0) fixStore).1).data = some wBook ∧
    (wBook.status = .confirmed ∧ wBook.startTime = (reqBufAt 0).startTime ∧
     wBook.endTime = (reqBufAt 0).startTime + svcBuf.durationMinutes * minuteMs ∧
     wBook.price = svcBuf.price ∧ wBook.currency = svcBuf.currency) :=
  ⟨by decide, by decide,
   create_success_postconditions 1000 bizA (reqBufAt 0) fixStore svcBuf wBook
     (by decide) (by decide)⟩

/-- A fixture booking literal on business `bizA` for service `svcPlain`. -/
def fixBooking (id stf : EntityId) (st et : Int) (status : BookingStatus) : Booking :=
  { id := id, businessId := bizA, customerId := custA.id, staffId := stf,
    serviceId := svcPlain.id, startTime := st, endTime := et, status := status,
    notes := none, cancellationReason := none, cancelledAt := none,
    cancelledBy := none, price := 50, currency := "USD", customer := none,
    staff := none, service := some svcPlain, createdAt := 0, updatedAt := 0 }

/-- Create request for `custA` with `svcPlain` on `staffId1` at instant `st`. -/
def reqPlainAt (st : Int) : CreateBookingRequest :=
  { customerId := some custA.id, staffId := staffId1, serviceId := svcPlain.id,
    startTime := st, notes := none, customerEmail := none,
    customerFirstName := none, customerLastName := none,
    customerPhoneNumber := none }

theorem createHasConflict_iff {biz sid : EntityId} {st e : Int} {l : List Booking} :
    createHasConflict biz sid st e l = true ↔
    (∃ b ∈ l, b.businessId = biz ∧ b.staffId = sid ∧ b.status ≠ .cancelled ∧
       b.startTime < e ∧ b.endTime > st) := by
  unfold createHasConflict
  rw [List.any_eq_true]
  constructor
  · rintro ⟨b, hb, hx⟩
    refine ⟨b, hb, ?_⟩
    simp only [Bool.and_eq_true, decide_eq_true_eq] at hx
    tauto
  · rintro ⟨b, hb, hx⟩
    refine ⟨b, hb, ?_⟩
    simp only [Bool.and_eq_true, decide_eq_true_eq]
    tauto

/-- C4 (amended): provided the requested serviceId and staffId both resolve,
createBooking yields error SLOT_NOT_AVAILABLE with status 409 if and only if
some existing booking of the same business and requested staff with status ≠
cancelled half-open-overlaps the candidate interval (`bs < e ∧ be > s`);
touching endpoints do not conflict and cancelled bookings never block.
Without the staff hypothesis the claim fails: a conflicting request whose
staffId does not resolve returns 404 NOT_FOUND instead. -/
theorem create_conflict_rule_amended (now : Int) (biz : EntityId)
    (req : CreateBookingRequest) (s : MockStore) (sv : Service)
    (hsv : s.services.find? (fun v => decide (v.id = req.serviceId)) = some sv)
    (hst : (s.staff.find? (fun st => decide (st.id = req.staffId))).isSome = true) :
    (((mockCreateBooking now biz req s).1).error =
        some { code := "SLOT_NOT_AVAILABLE",
               message := "The selected time slot is no longer available" } ∧
     ((mockCreateBooking now biz req s).1).statusCode = 409) ↔
    (∃ b ∈ s.bookings, b.businessId = biz ∧ b.staffId = req.staffId ∧
       b.status ≠ .cancelled ∧
       b.startTime < req.startTime + sv.durationMinutes * minuteMs ∧
       b.endTime > req.startTime) := by
  rw [Option.isSome_iff_exists] at hst
  obtain ⟨staff, hstf⟩ := hst
  unfold mockCreateBooking
  rw [hsv, hstf]
  dsimp only
  by_cases hc : createHasConflict biz req.staffId req.startTime
      (req.startTime + sv.durationMinutes * minuteMs) s.bookings = true
  · rw [if_pos hc]
    exact ⟨fun _ => createHasConflict_iff.mp hc, fun _ => ⟨rfl, rfl⟩⟩
  · rw [if_neg hc]
    have hnc : ¬(∃ b ∈ s.bookings, b.businessId = biz ∧ b.staffId = req.staffId ∧
        b.status ≠ .cancelled ∧
        b.startTime < req.startTime + sv.durationMinutes * minuteMs ∧
        b.endTime > req.startTime) := fun hex => hc (createHasConflict_iff.mpr hex)
    split
    · refine ⟨fun hx => ?_, fun hx => absurd hx hnc⟩
      simp [createErrorResult] at hx
    next customer customersAfterAdd aliasP hres =>
      refine ⟨fun hx => ?_, fun hx => absurd hx hnc⟩
      simp [createSuccessResult] at hx

/-- Store for the C4 counterexample and witness: one overlapping confirmed
booking for `staffId1`; the counterexample store has no staff records. -/
def c4Store : MockStore :=
  { staff := [], services := [svcPlain], customers := [custA],
    bookings := [fixBooking (.str "bk-existing") staffId1 0 3600000 .confirmed],
    workingHours := [] }

/-- Same store with the staff record present. -/
def c4StoreStaffed : MockStore :=
  { c4Store with staff := [staffRec1] }

/-- C4 is false as stated: an overlapping non-cancelled booking exists for
the requested business and staffId, yet createBooking returns the generic
NOT_FOUND with 404 (the staffId resolves to no staff record), not
SLOT_NOT_AVAILABLE with 409. -/
theorem create_conflict_rule_counterexample :
    (∃ b ∈ c4Store.bookings, b.businessId = bizA ∧
       b.staffId = (reqPlainAt 1800000).staffId ∧ b.status ≠ .cancelled ∧
       b.startTime < (reqPlainAt 1800000).startTime +
         svcPlain.durationMinutes * minuteMs ∧
       b.endTime > (reqPlainAt 1800000).startTime) ∧
    ((mockCreateBooking 1000 bizA (reqPlainAt 1800000) c4Store).1).error =
      some { code := "NOT_FOUND", message := "Staff member not found." } ∧
    ((mockCreateBooking 1000 bizA (reqPlainAt 1800000) c4Store).1).statusCode = 404 := by
  decide

/-- Witness for the amended C4 theorem at a concrete input. -/
theorem create_conflict_rule_witness :
    (c4StoreStaffed.services.find?
        (fun v => decide (v.id = (reqPlainAt 1800000).serviceId)) = some svcPlain ∧
     (c4StoreStaffed.staff.find?
        (fun st => decide (st.id = (reqPlainAt 1800000).staffId))).isSome = true) ∧
    ((((mockCreateBooking 1000 bizA (reqPlainAt 1800000) c4StoreStaffed).1).error =
        some { code := "SLOT_NOT_AVAILABLE",
               message := "The selected time slot is no longer available" } ∧
      ((mockCreateBooking 1000 bizA (reqPlainAt 1800000) c4StoreStaffed).1).statusCode
        = 409) ↔
     (∃ b ∈ c4StoreStaffed.bookings, b.businessId = bizA ∧
        b.staffId = (reqPlainAt 1800000).staffId ∧ b.status ≠ .cancelled ∧
        b.startTime < (reqPlainAt 1800000).startTime +
          svcPlain.durationMinutes * minuteMs ∧
        b.endTime > (reqPlainAt 1800000).startTime)) :=
  ⟨⟨by decide, by decide⟩,
   create_conflict_rule_amended 1000 bizA (reqPlainAt 1800000) c4StoreStaffed svcPlain
     (by decide) (by decide)⟩

theorem availabilitySlotBooked_eq_conflict {biz sid : EntityId} {l : List Booking}
    {st e : Int} :
    availabilitySlotBooked biz (some sid) l st e = createHasConflict biz sid st e l := by
  unfold availabilitySlotBooked createHasConflict
  congr 1
  funext b
  dsimp only
  cases hbb : decide (b.businessId = biz) <;> cases hbs : decide (b.staffId = sid) <;>
    cases hbc : decide (b.status ≠ BookingStatus.cancelled) <;> simp

/-- C3 (amended): for an availability query whose explicit staffId resolves to
a staff record, and an immediate create request for the same business,
service, staff and slot start that supplies a resolvable customer, a slot
with isAvailable = true books successfully (201) and a slot with
isAvailable = false fails with SLOT_NOT_AVAILABLE (409).  Without the staff
and customer hypotheses the claim fails: availability never checks that the
staff or customer exist, while createBooking does. -/
theorem availability_ledger_agreement (now : Int) (biz stf : EntityId)
    (areq : AvailabilityRequest) (s : MockStore) (resp : AvailabilityResponse)
    (slot : TimeSlot) (creq : CreateBookingRequest)
    (hstaffq : areq.staffId = some stf)
    (hresp : (mockGetAvailability biz areq s).data = some resp)
    (hslot : slot ∈ resp.slots)
    (hstf : (s.staff.find? (fun st => decide (st.id = stf))).isSome = true)
    (hcust : (findOrCreateCustomer now biz creq s).isSome = true)
    (hstaffId : creq.staffId = stf) (hsvc : creq.serviceId = areq.serviceId)
    (hstart : creq.startTime = slot.startTime) :
    (slot.isAvailable = true →
       ((mockCreateBooking now biz creq s).1).isSuccess = true ∧
       ((mockCreateBooking now biz creq s).1).statusCode = 201) ∧
    (slot.isAvailable = false →
       ((mockCreateBooking now biz creq s).1).error =
         some { code := "SLOT_NOT_AVAILABLE",
                message := "The selected time slot is no longer available" } ∧
       ((mockCreateBooking now biz creq s).1).statusCode = 409) := by
  unfold mockGetAvailability at hresp
  split at hresp
  · simp [createNotFoundResult] at hresp
  next service hsv =>
    simp only [createSuccessResult, Option.some.injEq] at hresp
    subst hresp
    dsimp only at hslot
    obtain ⟨i, hi, hfi⟩ := List.mem_map.mp hslot
    subst hfi
    dsimp only at hstart ⊢
    rw [hstaffq]
    unfold mockCreateBooking
    rw [hsvc, hsv]
    dsimp only
    obtain ⟨staff, hstaff⟩ := Option.isSome_iff_exists.mp hstf
    rw [hstaffId, hstaff]
    dsimp only
    rw [hstart]
    rw [availabilitySlotBooked_eq_conflict]
    by_cases hc : createHasConflict biz stf (areq.date + (9 + i) * hourMs)
        (areq.date + (9 + i) * hourMs + service.durationMinutes * minuteMs)
        s.bookings = true
    · rw [if_pos hc, hc]
      exact ⟨fun hx => absurd hx (by decide), fun _ => ⟨rfl, rfl⟩⟩
    · rw [Bool.not_eq_true] at hc
      rw [hc]
      rw [if_neg (by decide : ¬(false = true))]
      obtain ⟨⟨customer, customersAfterAdd, aliasP⟩, htrip⟩ :=
        Option.isSome_iff_exists.mp hcust
      rw [htrip]
      exact ⟨fun _ => ⟨rfl, rfl⟩, fun hx => absurd hx (by decide)⟩

/-- Store for the C3 counterexample: the service exists but no staff record
does; the ledger is empty. -/
def c3Store : MockStore :=
  { staff := [], services := [svcPlain], customers := [custA],
    bookings := [], workingHours := [] }

/-- Availability request used by the C3 counterexample. -/
def c3AReq : AvailabilityRequest :=
  { staffId := some staffId1, serviceId := svcPlain.id, date := 0 }

/-- C3 is false as stated: the 9:00 slot is reported isAvailable = true, yet
an immediate createBooking for the same business, service, staff and start
fails (404 NOT_FOUND), because availability never checks that the staffId
resolves to a staff record while createBooking does. -/
theorem availability_ledger_counterexample :
    (∃ slot ∈ ((mockGetAvailability bizA c3AReq c3Store).data.getD
        ⟨0, []⟩).slots, slot.isAvailable = true ∧ slot.startTime = 32400000) ∧
    ((mockCreateBooking 1000 bizA (reqPlainAt 32400000) c3Store).1).isSuccess
      = false ∧
    ((mockCreateBooking 1000 bizA (reqPlainAt 32400000) c3Store).1).statusCode
      = 404 := by
  decide

/-- Availability request used by the C3 witness. -/
def wAReq : AvailabilityRequest :=
  { staffId := some staffId1, serviceId := svcBuf.id, date := 0 }

/-- Availability response of the C3 witness query. -/
def wResp : AvailabilityResponse :=
  (mockGetAvailability bizA wAReq fixStore).data.getD ⟨0, []⟩

/-- The 9:00 slot of the C3 witness query. -/
def wSlot : TimeSlot :=
  { startTime := 32400000, endTime := 36000000, isAvailable := true }

/-- Witness for the amended C3 theorem at a concrete input: the 9:00 slot is
free and the corresponding create succeeds. -/
theorem availability_ledger_agreement_witness :
    (mockGetAvailability bizA wAReq fixStore).data = some wResp ∧
    wSlot ∈ wResp.slots ∧ wSlot.isAvailable = true ∧
    ((mockCreateBooking 1000 bizA (reqBufAt 32400000) fixStore).1).isSuccess
      = true ∧
    ((mockCreateBooking 1000 bizA (reqBufAt 32400000) fixStore).1).statusCode
      = 201 :=
  ⟨by decide, by decide, by decide,
   (availability_ledger_agreement 1000 bizA staffId1 wAReq fixStore wResp wSlot
      (reqBufAt 32400000) (by decide) (by decide) (by decide) (by decide)
      (by decide) (by decide) (by decide) (by decide)).1 (by decide)⟩

/-- C6 (amended): cancelled IS terminal for all five transition operations
(cancel returns the specific BOOKING_ALREADY_CANCELLED, the others
BAD_REQUEST, all 400, all leaving the store unchanged).  completed rejects
update/cancel/confirm/no-show the same way, but completeBooking on an
already-completed booking SUCCEEDS (it rewrites status completed again).
no_show is NOT terminal: only confirmBooking rejects it, while updateBooking
(here: without a new startTime), cancelBooking, completeBooking and
markBookingNoShow all succeed. -/
theorem terminal_states_amended (now : Int) (biz bid : EntityId)
    (creq : Option CancelBookingRequest) (ureq : UpdateBookingRequest)
    (s : MockStore) (b : Booking)
    (hb : s.bookings.find?
      (fun x => decide (x.id = bid) && decide (x.businessId = biz)) = some b) :
    (b.status = .cancelled →
       (mockCancelBooking now biz bid creq s =
          (createErrorResult "BOOKING_ALREADY_CANCELLED"
            "This booking has already been cancelled" 400, s) ∧
        mockUpdateBooking now biz bid ureq s =
          (createErrorResult "BAD_REQUEST" "Cannot update a cancelled booking" 400, s) ∧
        mockConfirmBooking now biz bid s =
          (createErrorResult "BAD_REQUEST" "Only pending bookings can be confirmed" 400, s) ∧
        mockCompleteBooking now biz bid s =
          (createErrorResult "BAD_REQUEST" "Cannot complete a cancelled booking" 400, s) ∧
        mockMarkNoShow now biz bid s =
          (createErrorResult "BAD_REQUEST"
            "Cannot mark a cancelled booking as no-show" 400, s))) ∧
    (b.status = .completed →
       (mockUpdateBooking now biz bid ureq s =
          (createErrorResult "BAD_REQUEST" "Cannot update a completed booking" 400, s) ∧
        mockCancelBooking now biz bid creq s =
          (createErrorResult "BAD_REQUEST" "Cannot cancel a completed booking" 400, s) ∧
        mockConfirmBooking now biz bid s =
          (createErrorResult "BAD_REQUEST" "Only pending bookings can be confirmed" 400, s) ∧
        mockMarkNoShow now biz bid s =
          (createErrorResult "BAD_REQUEST"
            "Cannot mark a completed booking as no-show" 400, s) ∧
        ((mockCompleteBooking now biz bid s).1).isSuccess = true)) ∧
    (b.status = .no_show →
       (mockConfirmBooking now biz bid s =
          (createErrorResult "BAD_REQUEST" "Only pending bookings can be confirmed" 400, s) ∧
        (ureq.startTime = none →
          ((mockUpdateBooking now biz bid ureq s).1).isSuccess = true) ∧
        ((mockCancelBooking now biz bid creq s).1).isSuccess = true ∧
        ((mockCompleteBooking now biz bid s).1).isSuccess = true ∧
        ((mockMarkNoShow now biz bid s).1).isSuccess = true)) := by
  refine ⟨fun hst => ⟨?_, ?_, ?_, ?_, ?_⟩,
          fun hst => ⟨?_, ?_, ?_, ?_, ?_⟩,
          fun hst => ⟨?_, fun hnone => ?_, ?_, ?_, ?_⟩⟩
  · simp [mockCancelBooking, hb, hst]
  · simp [mockUpdateBooking, hb, hst, statusText]
  · simp [mockConfirmBooking, hb, hst]
  · simp [mockCompleteBooking, hb, hst]
  · simp [mockMarkNoShow, hb, hst, statusText]
  · simp [mockUpdateBooking, hb, hst, statusText]
  · simp [mockCancelBooking, hb, hst]
  · simp [mockConfirmBooking, hb, hst]
  · simp [mockMarkNoShow, hb, hst, statusText]
  · simp [mockCompleteBooking, hb, hst]
  · simp [mockConfirmBooking, hb, hst]
  · simp [mockUpdateBooking, hb, hst, updateHasConflict, hnone]
  · simp [mockCancelBooking, hb, hst]
  · simp [mockCompleteBooking, hb, hst]
  · simp [mockMarkNoShow, hb, hst]

/-- Store with a single no_show booking. -/
def c6Store : MockStore :=
  { staff := [staffRec1], services := [svcPlain], customers := [custA],
    bookings := [fixBooking (.str "bk-ns") staffId1 0 3600000 .no_show],
    workingHours := [] }

/-- C6 is false as stated: completeBooking on a no_show booking succeeds with
200 and overwrites the status to completed, though the claim says every
transition attempt from a terminal state fails with 400 leaving the booking
unchanged. -/
theorem terminal_states_counterexample :
    ((mockCompleteBooking 1000 bizA (.str "bk-ns") c6Store).1).isSuccess = true ∧
    ((mockCompleteBooking 1000 bizA (.str "bk-ns") c6Store).1).statusCode = 200 ∧
    (∃ b ∈ ((mockCompleteBooking 1000 bizA (.str "bk-ns") c6Store).2).bookings,
       b.id = .str "bk-ns" ∧ b.status = .completed) := by
  decide

/-- Store with a single cancelled booking. -/
def c6wStore : MockStore :=
  { staff := [staffRec1], services := [svcPlain], customers := [custA],
    bookings := [fixBooking (.str "bk-cl") staffId1 0 3600000 .cancelled],
    workingHours := [] }

/-- Witness for the amended C6 theorem at a concrete input: cancelling an
already-cancelled booking yields BOOKING_ALREADY_CANCELLED/400 and leaves the
store unchanged. -/
theorem terminal_states_witness :
    c6wStore.bookings.find?
      (fun x => decide (x.id = EntityId.str "bk-cl") && decide (x.businessId = bizA))
      = some (fixBooking (.str "bk-cl") staffId1 0 3600000 .cancelled) ∧
    mockCancelBooking 1000 bizA (.str "bk-cl") none c6wStore =
      (createErrorResult "BOOKING_ALREADY_CANCELLED"
        "This booking has already been cancelled" 400, c6wStore) :=
  ⟨by decide,
   ((terminal_states_amended 1000 bizA (.str "bk-cl") none ⟨none, none, none⟩
      c6wStore (fixBooking (.str "bk-cl") staffId1 0 3600000 .cancelled)
      (by decide)).1 (by decide)).1⟩

/-- The duration the update conflict check uses, restated standalone: the
store lookup of the booking's service with the JS falsy-or fallback
(`service?.durationMinutes || 60`). -/
def updateFallbackDur (booking : Booking) (s : MockStore) : Int :=
  match s.services.find? (fun sv => decide (sv.id = booking.serviceId)) with
  | none => 60
  | some sv => if sv.durationMinutes = 0 then 60 else sv.durationMinutes

/-- Declarative reading of the update conflict condition: some other booking
of the target business and candidate staff, not cancelled, half-open-overlaps
the candidate interval. -/
def UpdateConflictSpec (biz bid : EntityId) (ureq : UpdateBookingRequest)
    (b : Booking) (s : MockStore) (st : Int) : Prop :=
  ∃ b2 ∈ s.bookings, b2.id ≠ bid ∧ b2.businessId = biz ∧
    b2.staffId = ureq.staffId.getD b.staffId ∧ b2.status ≠ .cancelled ∧
    b2.startTime < st + updateFallbackDur b s * minuteMs ∧ b2.endTime > st

instance (biz bid : EntityId) (ureq : UpdateBookingRequest) (b : Booking)
    (s : MockStore) (st : Int) : Decidable (UpdateConflictSpec biz bid ureq b s st) := by
  unfold UpdateConflictSpec
  infer_instance

theorem updateHasConflict_iff {biz bid : EntityId} {ureq : UpdateBookingRequest}
    {b : Booking} {s : MockStore} {st : Int} (hsome : ureq.startTime = some st) :
    updateHasConflict biz bid ureq b s = true ↔ UpdateConflictSpec biz bid ureq b s st := by
  unfold updateHasConflict UpdateConflictSpec updateFallbackDur
  rw [hsome]
  dsimp only
  rw [List.any_eq_true]
  constructor
  · rintro ⟨b2, hb2, hx⟩
    refine ⟨b2, hb2, ?_⟩
    simp only [Bool.and_eq_true, decide_eq_true_eq] at hx
    tauto
  · rintro ⟨b2, hb2, hx⟩
    refine ⟨b2, hb2, ?_⟩
    simp only [Bool.and_eq_true, decide_eq_true_eq]
    tauto

theorem find?_storeUpdateBooking {id : EntityId} {f : Booking → Booking}
    {l : List Booking} (hf : ∀ b, (f b).id = b.id) :
    (storeUpdateBooking id f l).find? (fun b => decide (b.id = id)) =
    (l.find? (fun b => decide (b.id = id))).map f := by
  induction l with
  | nil => rfl
  | cons b rest ih =>
    simp only [storeUpdateBooking]
    by_cases hb : b.id = id
    · rw [if_pos hb]
      rw [List.find?_cons_of_pos _ (by simp [hf, hb]),
          List.find?_cons_of_pos _ (by simp [hb])]
      rfl
    · rw [if_neg hb]
      rw [List.find?_cons_of_neg _ (by simp [hb]),
          List.find?_cons_of_neg _ (by simp [hb])]
      exact ih

/-- C7 (amended): updateBooking rejects cancelled/completed bookings with
BAD_REQUEST (400).  The conflict re-validation and the endTime recomputation
run ONLY when the request carries a new startTime: a staffId-only change is
applied with no conflict check at all.  With a new startTime, the update
fails SLOT_NOT_AVAILABLE (409) exactly when another booking of the business
and candidate staff (request staffId if given, else the booking's) with
status ≠ cancelled overlaps [st, st + d·60000) where d is the store service's
duration (JS falsy-or fallback 60); on success the stored booking gets
startTime st, the candidate staff, and endTime recomputed from the booking's
EMBEDDED service when that is present. -/
theorem update_revalidation_amended (now : Int) (biz bid : EntityId)
    (ureq : UpdateBookingRequest) (s : MockStore) (b : Booking)
    (hb : s.bookings.find?
      (fun x => decide (x.id = bid) && decide (x.businessId = biz)) = some b) :
    ((b.status = .cancelled ∨ b.status = .completed) →
       mockUpdateBooking now biz bid ureq s =
         (createErrorResult "BAD_REQUEST"
           ("Cannot update a " ++ statusText b.status ++ " booking") 400, s)) ∧
    (¬(b.status = .cancelled ∨ b.status = .completed) →
       ((ureq.startTime = none →
           ((mockUpdateBooking now biz bid ureq s).1).isSuccess = true) ∧
        (∀ st, ureq.startTime = some st →
           ((UpdateConflictSpec biz bid ureq b s st →
               mockUpdateBooking now biz bid ureq s =
                 (createErrorResult "SLOT_NOT_AVAILABLE"
                   "The selected time slot is not available" 409, s)) ∧
            (¬UpdateConflictSpec biz bid ureq b s st →
               ((mockUpdateBooking now biz bid ureq s).1).isSuccess = true ∧
               (s.bookings.find? (fun x => decide (x.id = bid)) = some b →
                 ∃ ub, ((mockUpdateBooking now biz bid ureq s).1).data = some ub ∧
                   ub.startTime = st ∧
                   ub.staffId = ureq.staffId.getD b.staffId ∧
                   (∀ sv, b.service = some sv →
                     ub.endTime = st + sv.durationMinutes * minuteMs))))))) := by
  unfold mockUpdateBooking
  rw [hb]
  dsimp only
  refine ⟨fun hterm => ?_, fun hterm => ⟨fun hnone => ?_, fun st hsome => ⟨fun hconf => ?_, fun hnconf => ?_⟩⟩⟩
  · rw [if_pos hterm]
  · rw [if_neg hterm]
    have hcf : updateHasConflict biz bid ureq b s = false := by
      unfold updateHasConflict
      rw [hnone]
    rw [hcf]
    rw [if_neg (by decide : ¬(false = true))]
  · rw [if_neg hterm]
    have hct : updateHasConflict biz bid ureq b s = true :=
      (updateHasConflict_iff hsome).mpr hconf
    rw [if_pos hct]
  · rw [if_neg hterm]
    have hcf : updateHasConflict biz bid ureq b s = false := by
      rw [← Bool.not_eq_true]
      intro hx
      exact hnconf ((updateHasConflict_iff hsome).mp hx)
    rw [hcf]
    rw [if_neg (by decide : ¬(false = true))]
    refine ⟨rfl, fun hfirst => ?_⟩
    refine ⟨mergeUpdate now ureq b b, ?_, ?_, ?_, ?_⟩
    · show (storeUpdateBooking bid (mergeUpdate now ureq b) s.bookings).find?
        (fun x => decide (x.id = bid)) = some (mergeUpdate now ureq b b)
      rw [find?_storeUpdateBooking (f := mergeUpdate now ureq b) (fun x => rfl), hfirst]
      rfl
    · show ureq.startTime.getD b.startTime = st
      rw [hsome]
      rfl
    · rfl
    · intro sv hsv
      show (match ureq.startTime, b.service with
            | some st, some sv => st + sv.durationMinutes * minuteMs
            | _, _ => b.endTime) = st + sv.durationMinutes * minuteMs
      rw [hsome, hsv]

/-- Store for the C7 counterexample and witness: fully overlapping confirmed
bookings on two different staff members. -/
def c7Store : MockStore :=
  { staff := [staffRec1, staffRec2], services := [svcPlain], customers := [custA],
    bookings := [fixBooking (.str "bk-1") staffId1 0 3600000 .confirmed,
                 fixBooking (.str "bk-2") staffId2 0 3600000 .confirmed],
    workingHours := [] }

/-- C7 is false as stated: an update that changes only staffId (no startTime)
moves bk-2 onto staffId1, which already has a fully overlapping confirmed
booking, yet the update succeeds — no conflict re-validation and no endTime
recomputation happen for staffId-only changes, leaving a double booking. -/
theorem update_revalidation_counterexample :
    ((mockUpdateBooking 1000 bizA (.str "bk-2")
        ⟨some staffId1, none, none⟩ c7Store).1).isSuccess = true ∧
    noDoubleB c7Store.bookings = true ∧
    noDoubleB ((mockUpdateBooking 1000 bizA (.str "bk-2")
        ⟨some staffId1, none, none⟩ c7Store).2).bookings = false := by
  decide

/-- Witness for the amended C7 theorem at a concrete input: rescheduling
bk-2 onto staffId1 at the occupied instant 0 fails SLOT_NOT_AVAILABLE. -/
theorem update_revalidation_witness :
    c7Store.bookings.find?
      (fun x => decide (x.id = EntityId.str "bk-2") && decide (x.businessId = bizA))
      = some (fixBooking (.str "bk-2") staffId2 0 3600000 .confirmed) ∧
    mockUpdateBooking 1000 bizA (.str "bk-2") ⟨some staffId1, some 0, none⟩ c7Store =
      (createErrorResult "SLOT_NOT_AVAILABLE"
        "The selected time slot is not available" 409, c7Store) :=
  ⟨by decide,
   (((update_revalidation_amended 1000 bizA (.str "bk-2")
       ⟨some staffId1, some 0, none⟩ c7Store
       (fixBooking (.str "bk-2") staffId2 0 3600000 .confirmed)
       (by decide)).2 (by decide)).2 0 rfl).1 (by decide)⟩

/-- C10: when the target booking has no embedded service and its serviceId
does not resolve in the store either, a rescheduling update checks conflicts
against a 60-minute fallback interval [st, st + 60·60000) and leaves the
stored endTime unchanged at its prior value (only startTime moves, so the
stored interval length changes). -/
theorem update_missing_service_fallback (now : Int) (biz bid : EntityId)
    (ureq : UpdateBookingRequest) (s : MockStore) (b : Booking) (st : Int)
    (hb : s.bookings.find?
      (fun x => decide (x.id = bid) && decide (x.businessId = biz)) = some b)
    (hterm : ¬(b.status = .cancelled ∨ b.status = .completed))
    (hsome : ureq.startTime = some st)
    (hnosvc : b.service = none)
    (hstore : s.services.find? (fun sv => decide (sv.id = b.serviceId)) = none)
    (hfirst : s.bookings.find? (fun x => decide (x.id = bid)) = some b) :
    (mockUpdateBooking now biz bid ureq s =
       (createErrorResult "SLOT_NOT_AVAILABLE"
         "The selected time slot is not available" 409, s) ↔
     (∃ b2 ∈ s.bookings, b2.id ≠ bid ∧ b2.businessId = biz ∧
        b2.staffId = ureq.staffId.getD b.staffId ∧ b2.status ≠ .cancelled ∧
        b2.startTime < st + 60 * minuteMs ∧ b2.endTime > st)) ∧
    (¬(∃ b2 ∈ s.bookings, b2.id ≠ bid ∧ b2.businessId = biz ∧
        b2.staffId = ureq.staffId.getD b.staffId ∧ b2.status ≠ .cancelled ∧
        b2.startTime < st + 60 * minuteMs ∧ b2.endTime > st) →
      ∃ ub, ((mockUpdateBooking now biz bid ureq s).1).data = some ub ∧
        ub.startTime = st ∧ ub.endTime = b.endTime) := by
  have hdur : updateFallbackDur b s = 60 := by
    unfold updateFallbackDur
    rw [hstore]
  have hspec : UpdateConflictSpec biz bid ureq b s st ↔
      (∃ b2 ∈ s.bookings, b2.id ≠ bid ∧ b2.businessId = biz ∧
        b2.staffId = ureq.staffId.getD b.staffId ∧ b2.status ≠ .cancelled ∧
        b2.startTime < st + 60 * minuteMs ∧ b2.endTime > st) := by
    unfold UpdateConflictSpec
    rw [hdur]
  unfold mockUpdateBooking
  rw [hb]
  dsimp only
  rw [if_neg hterm]
  by_cases hct : updateHasConflict biz bid ureq b s = true
  · rw [if_pos hct]
    constructor
    · refine ⟨fun _ => hspec.mp ((updateHasConflict_iff hsome).mp hct), fun _ => rfl⟩
    · intro hnc
      exact absurd (hspec.mp ((updateHasConflict_iff hsome).mp hct)) hnc
  · rw [if_neg hct]
    have hcf : updateHasConflict biz bid ureq b s = false := by
      rw [← Bool.not_eq_true]
      exact hct
    constructor
    · constructor
      · intro hx
        simp [createErrorResult] at hx
      · intro hex
        exact absurd ((updateHasConflict_iff hsome).mpr (hspec.mpr hex)) hct
    · intro _
      refine ⟨mergeUpdate now ureq b b, ?_, ?_, ?_⟩
      · show (storeUpdateBooking bid (mergeUpdate now ureq b) s.bookings).find?
          (fun x => decide (x.id = bid)) = some (mergeUpdate now ureq b b)
        rw [find?_storeUpdateBooking (f := mergeUpdate now ureq b) (fun x => rfl),
          hfirst]
        rfl
      · show ureq.startTime.getD b.startTime = st
        rw [hsome]
        rfl
      · show (match ureq.startTime, b.service with
              | some st, some sv => st + sv.durationMinutes * minuteMs
              | _, _ => b.endTime) = b.endTime
        rw [hsome, hnosvc]

/-- Booking with no embedded service and an unresolvable serviceId. -/
def c10Booking : Booking :=
  { fixBooking (.str "bk-x") staffId1 0 3600000 .confirmed with
    service := none, serviceId := .str "service-none" }

/-- Store for the C10 witness: the booking's service resolves nowhere. -/
def c10Store : MockStore :=
  { staff := [staffRec1], services := [], customers := [custA],
    bookings := [c10Booking], workingHours := [] }

/-- Witness for the C10 theorem at a concrete input: rescheduling bk-x to
600000 succeeds and keeps the prior endTime 3600000 (interval now 50 minutes
instead of the original 60). -/
theorem update_missing_service_fallback_witness :
    c10Booking.service = none ∧
    c10Store.services.find?
      (fun sv => decide (sv.id = c10Booking.serviceId)) = none ∧
    (∃ ub, ((mockUpdateBooking 1000 bizA (.str "bk-x")
        ⟨none, some 600000, none⟩ c10Store).1).data = some ub ∧
      ub.startTime = 600000 ∧ ub.endTime = c10Booking.endTime) :=
  ⟨by decide, by decide,
   (update_missing_service_fallback 1000 bizA (.str "bk-x")
      ⟨none, some 600000, none⟩ c10Store c10Booking 600000
      (by decide) (by decide) rfl rfl (by decide) (by decide)).2 (by decide)⟩

/-- The weekday JavaScript's `Date.getDay()` assigns to an instant (Sunday =
0; the epoch 1970-01-01 was a Thursday, day 4), for nonnegative instants. -/
def jsWeekday (t : Int) : Int := (t / dayMs + 4) % 7

/-- Working-hours entry for the C8 failing input: Thursday disabled. -/
def c8WH : WorkingHours :=
  { staffId := staffId1, dayOfWeek := 4, startMinute := 540, endMinute := 1020,
    isEnabled := false }

/-- Store for the C8 failing input. -/
def c8Store : MockStore :=
  { staff := [staffRec1], services := [svcPlain], customers := [custA],
    bookings := [], workingHours := [c8WH] }

/-- C8, evaluated at the failing input: the staff's WorkingHours entry for
the queried date's weekday (Thursday, epoch day 0) is disabled, yet
mockGetAvailability still returns 9 hourly slots — the handler generates a
fixed 9:00-18:00 hourly grid and never consults workingHours, contradicting
the spec's working-hours-driven Calendar Math. -/
theorem availability_ignores_workingHours :
    (∃ wh ∈ c8Store.workingHours, wh.staffId = staffId1 ∧
       wh.dayOfWeek = jsWeekday 0 ∧ wh.isEnabled = false) ∧
    ((mockGetAvailability bizA ⟨some staffId1, svcPlain.id, 0⟩ c8Store).data).map
      (fun r => r.slots.length) = some 9 := by
  decide

theorem length_bumpFirstCustomer {p : Customer → Bool} {f : Customer → Customer}
    {cs : List Customer} : (bumpFirstCustomer p f cs).length = cs.length := by
  induction cs with
  | nil => rfl
  | cons c rest ih =>
    simp only [bumpFirstCustomer]
    by_cases hc : p c = true
    · rw [if_pos hc]
      rfl
    · rw [if_neg hc]
      simp [ih]

theorem find?_append_last {α : Type} {l1 : List α} {x : α} {p : α → Bool}
    (h : ∀ y ∈ l1, p y = false) (hx : p x = true) :
    (l1 ++ [x]).find? p = some x := by
  induction l1 with
  | nil => simp [List.find?, hx]
  | cons y rest ih =>
    rw [List.cons_append,
      List.find?_cons_of_neg _ (by simp [h y (List.mem_cons_self _ _)])]
    exact ih (fun z hz => h z (List.mem_cons_of_mem _ hz))

theorem create_guest_shape (now : Int) (biz : EntityId)
    (req : CreateBookingRequest) (s : MockStore) (em : String)
    (hcid : req.customerId = none) (hem : req.customerEmail = some em)
    (hnomatch : findCustomerByEmail em s = none)
    (hfresh : custStampsBelow now s.customers = true)
    (hsuc : ((mockCreateBooking now biz req s).1).isSuccess = true) :
    ∃ sv, s.services.find? (fun v => decide (v.id = req.serviceId)) = some sv ∧
      ((mockCreateBooking now biz req s).2).customers =
        s.customers ++
          [bumpStats sv.price req.startTime (guestCustomer now biz req em)] ∧
      (∃ bk, ((mockCreateBooking now biz req s).1).data = some bk ∧
        bk.customerId = EntityId.customerStamp now) := by
  have hres : findOrCreateCustomer now biz req s =
      some (guestCustomer now biz req em,
        s.customers ++ [guestCustomer now biz req em],
        fun d => decide (d.id = EntityId.customerStamp now)) := by
    unfold findOrCreateCustomer
    rw [hcid, hem]
    dsimp only
    rw [hnomatch]
  have haliasF : ∀ c ∈ s.customers,
      decide (c.id = EntityId.customerStamp now) = false := by
    intro c hc
    rw [decide_eq_false_iff_not]
    intro he
    have hx := List.all_eq_true.mp hfresh c hc
    rw [he] at hx
    simp only [idStampBelow, decide_eq_true_eq] at hx
    omega
  unfold mockCreateBooking at hsuc ⊢
  cases hsv : s.services.find? (fun v => decide (v.id = req.serviceId)) with
  | none =>
    rw [hsv] at hsuc
    simp [createNotFoundResult] at hsuc
  | some sv =>
    rw [hsv] at hsuc
    dsimp only at hsuc ⊢
    cases hstf : s.staff.find? (fun st => decide (st.id = req.staffId)) with
    | none =>
      rw [hstf] at hsuc
      simp [createNotFoundResult] at hsuc
    | some staff =>
      rw [hstf] at hsuc
      dsimp only at hsuc ⊢
      by_cases hc : createHasConflict biz req.staffId req.startTime
          (req.startTime + sv.durationMinutes * minuteMs) s.bookings = true
      · rw [if_pos hc] at hsuc
        simp [createErrorResult] at hsuc
      · rw [if_neg hc] at hsuc ⊢
        rw [hres] at hsuc ⊢
        dsimp only at hsuc ⊢
        refine ⟨sv, rfl, ?_, ⟨_, rfl, rfl⟩⟩
        show bumpFirstCustomer (fun d => decide (d.id = EntityId.customerStamp now))
          (bumpStats sv.price req.startTime)
          (s.customers ++ [guestCustomer now biz req em]) = _
        rw [bumpFirstCustomer_append_last haliasF (by simp [guestCustomer])]

theorem create_guest_reuse_shape (now : Int) (biz : EntityId)
    (req : CreateBookingRequest) (s : MockStore) (em : String) (c : Customer)
    (hcid : req.customerId = none) (hem : req.customerEmail = some em)
    (hmatch : findCustomerByEmail em s = some c)
    (hsuc : ((mockCreateBooking now biz req s).1).isSuccess = true) :
    ∃ sv, s.services.find? (fun v => decide (v.id = req.serviceId)) = some sv ∧
      ((mockCreateBooking now biz req s).2).customers =
        bumpFirstCustomer (fun d => decide (d.email = em))
          (bumpStats sv.price req.startTime) s.customers ∧
      (∃ bk, ((mockCreateBooking now biz req s).1).data = some bk ∧
        bk.customerId = c.id) := by
  have hres : findOrCreateCustomer now biz req s =
      some (c, s.customers, fun d => decide (d.email = em)) := by
    unfold findOrCreateCustomer
    rw [hcid, hem]
    dsimp only
    rw [hmatch]
  unfold mockCreateBooking at hsuc ⊢
  cases hsv : s.services.find? (fun v => decide (v.id = req.serviceId)) with
  | none =>
    rw [hsv] at hsuc
    simp [createNotFoundResult] at hsuc
  | some sv =>
    rw [hsv] at hsuc
    dsimp only at hsuc ⊢
    cases hstf : s.staff.find? (fun st => decide (st.id = req.staffId)) with
    | none =>
      rw [hstf] at hsuc
      simp [createNotFoundResult] at hsuc
    | some staff =>
      rw [hstf] at hsuc
      dsimp only at hsuc ⊢
      by_cases hc : createHasConflict biz req.staffId req.startTime
          (req.startTime + sv.durationMinutes * minuteMs) s.bookings = true
      · rw [if_pos hc] at hsuc
        simp [createErrorResult] at hsuc
      · rw [if_neg hc] at hsuc ⊢
        rw [hres] at hsuc ⊢
        dsimp only at hsuc ⊢
        exact ⟨sv, rfl, rfl, ⟨_, rfl, rfl⟩⟩

/-- C9 (amended): the guest-booking email match is GLOBAL across all
businesses (the first customer whose email matches, regardless of
businessId), not scoped to the requesting business; when any match exists no
new customer is created and the booking is attached to the matched record.
Two consecutive successful guest bookings with the same fresh email (for any
business) still leave exactly one new customer record carrying
totalBookings = 2. -/
theorem guest_reuse_amended :
    (∀ now biz req s em c,
       req.customerId = none → req.customerEmail = some em →
       findCustomerByEmail em s = some c →
       ((mockCreateBooking now biz req s).1).isSuccess = true →
       ((mockCreateBooking now biz req s).2).customers.length =
         s.customers.length ∧
       (∃ bk, ((mockCreateBooking now biz req s).1).data = some bk ∧
          bk.customerId = c.id)) ∧
    (∀ now1 now2 biz req1 req2 s em,
       req1.customerId = none → req1.customerEmail = some em →
       req2.customerId = none → req2.customerEmail = some em →
       (∀ c ∈ s.customers, c.email ≠ em) →
       custStampsBelow now1 s.customers = true →
       ((mockCreateBooking now1 biz req1 s).1).isSuccess = true →
       ((mockCreateBooking now2 biz req2
          (mockCreateBooking now1 biz req1 s).2).1).isSuccess = true →
       ∃ c, ((mockCreateBooking now2 biz req2
          (mockCreateBooking now1 biz req1 s).2).2).customers =
            s.customers ++ [c] ∧
         c.email = em ∧ c.totalBookings = 2) := by
  constructor
  · intro now biz req s em c hcid hem hmatch hsuc
    obtain ⟨sv, _, hcs, hbk⟩ :=
      create_guest_reuse_shape now biz req s em c hcid hem hmatch hsuc
    refine ⟨?_, hbk⟩
    rw [hcs, length_bumpFirstCustomer]
  · intro now1 now2 biz req1 req2 s em hcid1 hem1 hcid2 hem2 hfreshEm hfresh hsuc1 hsuc2
    have hnomatch : findCustomerByEmail em s = none := by
      unfold findCustomerByEmail
      rw [List.find?_eq_none]
      intro c hc
      simp [hfreshEm c hc]
    obtain ⟨sv1, _, hcs1, _⟩ :=
      create_guest_shape now1 biz req1 s em hcid1 hem1 hnomatch hfresh hsuc1
    have hmatch2 : findCustomerByEmail em (mockCreateBooking now1 biz req1 s).2 =
        some (bumpStats sv1.price req1.startTime (guestCustomer now1 biz req1 em)) := by
      unfold findCustomerByEmail
      rw [hcs1]
      exact find?_append_last (fun y hy => by simp [hfreshEm y hy]) (by simp [bumpStats, guestCustomer])
    obtain ⟨sv2, _, hcs2, _⟩ :=
      create_guest_reuse_shape now2 biz req2 (mockCreateBooking now1 biz req1 s).2
        em _ hcid2 hem2 hmatch2 hsuc2
    rw [hcs1] at hcs2
    rw [bumpFirstCustomer_append_last
      (fun y hy => by simp [hfreshEm y hy]) (by simp [bumpStats, guestCustomer])] at hcs2
    refine ⟨_, hcs2, rfl, ?_⟩
    show ((0 : Int) + 1) + 1 = 2
    decide

/-- Customer of business `bizB` used by the C9 counterexample. -/
def custB2 : Customer :=
  { custA with
    id := .str "customer-b"
    businessId := bizB
    email := "g@example.com" }

/-- Store for the C9 counterexample: the only matching email belongs to a
customer of ANOTHER business. -/
def c9Store : MockStore :=
  { staff := [staffRec1], services := [svcPlain], customers := [custB2],
    bookings := [], workingHours := [] }

/-- Guest create request with email `g@example.com` at instant `st`. -/
def reqGuestAt (st : Int) : CreateBookingRequest :=
  { customerId := none, staffId := staffId1, serviceId := svcPlain.id,
    startTime := st, notes := none, customerEmail := some "g@example.com",
    customerFirstName := some "G", customerLastName := none,
    customerPhoneNumber := none }

/-- C9 is false as stated: a guest booking for business `bizA` reuses the
customer record of business `bizB` that has the same email — the email match
is not restricted to customers of the requesting business, and no new
customer is created for `bizA`. -/
theorem guest_reuse_counterexample :
    ((mockCreateBooking 1000 bizA (reqGuestAt 0) c9Store).1).isSuccess = true ∧
    ((mockCreateBooking 1000 bizA (reqGuestAt 0) c9Store).2).customers.length = 1 ∧
    (∃ bk, ((mockCreateBooking 1000 bizA (reqGuestAt 0) c9Store).1).data = some bk ∧
       bk.customerId = custB2.id) ∧
    custB2.businessId = bizB ∧ bizB ≠ bizA := by
  decide

/-- Store for the C9 witness: no customers at all. -/
def c9wStore : MockStore :=
  { staff := [staffRec1], services := [svcPlain], customers := [],
    bookings := [], workingHours := [] }

/-- Witness for the amended C9 theorem at a concrete input: two guest
bookings with the same fresh email end with a single customer whose
totalBookings is 2. -/
theorem guest_reuse_amended_witness :
    (∀ c ∈ c9wStore.customers, c.email ≠ "g@example.com") ∧
    ((mockCreateBooking 1000 bizA (reqGuestAt 0) c9wStore).1).isSuccess = true ∧
    ((mockCreateBooking 2000 bizA (reqGuestAt 7200000)
       (mockCreateBooking 1000 bizA (reqGuestAt 0) c9wStore).2).1).isSuccess = true ∧
    (∃ c, ((mockCreateBooking 2000 bizA (reqGuestAt 7200000)
       (mockCreateBooking 1000 bizA (reqGuestAt 0) c9wStore).2).2).customers =
         c9wStore.customers ++ [c] ∧
       c.email = "g@example.com" ∧ c.totalBookings = 2) :=
  ⟨by decide, by decide, by decide,
   guest_reuse_amended.2 1000 2000 bizA (reqGuestAt 0) (reqGuestAt 7200000)
     c9wStore "g@example.com" rfl rfl rfl rfl (by decide) (by decide)
     (by decide) (by decide)⟩
